import Mathlib

/-! KYC Nova: trust-score aggregation and liveness-scenario classification

A shallow embedding of the scoring code of the repository
(`server/index.js`, `src/services/AIServices.js`,
`src/services/realKYCServices.js`,
`src/components/SmartVision/LivenessDetection.jsx`).

Modelling conventions
* A JavaScript number is an exact rational (`ℚ`); the binary rounding of
  IEEE doubles is not modelled.
* `Math.floor x` is `⌊x⌋`, `Math.round x` is `⌊x + 1/2⌋` (JavaScript rounds
  halves towards `+∞`).
* Every call of `Math.random()` is an explicit argument `r` with `0 ≤ r < 1`.
* A property that may be `undefined` is an `Option`; `a || d` on such a
  number takes `d` when `a` is absent or `0` (the falsy numbers).
* Timestamps (`Date.now()`, `new Date()`) and log output are left out.
-/

namespace KYCNova

/-! ## JavaScript primitives -/

/-- The function `Math.round`: nearest integer, halves towards plus infinity. -/
def jsRound (x : ℚ) : ℤ := ⌊x + 1 / 2⌋

/-- The function `Math.floor`. -/
def jsFloor (x : ℚ) : ℤ := ⌊x⌋

/-- The expression `a || d` for an optional number `a`: absent and `0` are falsy. -/
def jsOr (a : Option ℚ) (d : ℚ) : ℚ :=
  match a with
  | some x => if x = 0 then d else x
  | none => d

/-- The expression `Math.round(x * 10) / 10`: rounding to one decimal. -/
def round1 (x : ℚ) : ℚ := (jsRound (x * 10) : ℚ) / 10

/-! ## Trust score: shared result shape -/

/-- One entry of the `factors` array (the free-text `details` is left out). -/
structure Factor where
  category : String
  score : ℚ
  impact : String
  deriving DecidableEq

/-! ## `POST /api/calculate-trust` (server/index.js) -/

/-- The result object sent by the handler (without `timestamp`). -/
structure TrustResult where
  finalScore : ℚ
  factors : List Factor
  recommendation : String
  deriving DecidableEq

/-- The local `docScore` of the handler: `documentData?.confidence || 85`. -/
def handlerDocScore (docConf : Option ℚ) : ℚ := jsOr docConf 85

/-- The local `bioScore` of the handler: `biometricData?.confidence || 80`. -/
def handlerBioScore (bioConf : Option ℚ) : ℚ := jsOr bioConf 80

/-- The local `behaviorScore` of the handler: `75 + Math.random() * 20`. -/
def handlerBehaviorScore (r : ℚ) : ℚ := 75 + r * 20

/-- The accumulator `score` of the handler after the three `+=`. -/
def handlerScore (docConf bioConf : Option ℚ) (r : ℚ) : ℚ :=
  0 + handlerDocScore docConf * (4 / 10) + handlerBioScore bioConf * (35 / 100)
    + handlerBehaviorScore r * (25 / 100)

/-- The handler of `POST /api/calculate-trust`; `docConf` and `bioConf` are
`documentData?.confidence` and `biometricData?.confidence`, `r` the random draw. -/
def calculateTrust (docConf bioConf : Option ℚ) (r : ℚ) : TrustResult :=
  let docScore := handlerDocScore docConf
  let bioScore := handlerBioScore bioConf
  let behaviorScore := handlerBehaviorScore r
  let finalScore := round1 (handlerScore docConf bioConf r)
  { finalScore := finalScore
    factors :=
      [ { category := "Document Authenticity", score := docScore,
          impact := if docScore > 90 then "High Positive" else "Medium Positive" },
        { category := "Biometric Match", score := bioScore,
          impact := if bioScore > 85 then "High Positive" else "Medium Positive" },
        { category := "Behavioral Analysis", score := behaviorScore,
          impact := if behaviorScore > 80 then "Medium Positive" else "Low Positive" } ]
    recommendation :=
      if finalScore ≥ 90 then "Approved"
      else if finalScore ≥ 75 then "Approved with Monitoring"
      else "Review Required" }

/-! ## `AIServices.calculateTrustScore` (src/services/AIServices.js) -/

/-- The object `documentData.extractedData`; `name` is absent when `undefined`. -/
structure ExtractedData where
  name : Option String
  deriving DecidableEq

/-- The argument `documentData`, as far as the trust score reads it. -/
structure DocumentData where
  confidence : Option ℚ
  extractedData : Option ExtractedData
  deriving DecidableEq

/-- The argument `biometricData`; `isMatch` is the truthiness of `.match`. -/
structure BiometricData where
  confidence : Option ℚ
  isMatch : Bool
  deriving DecidableEq

/-- The argument `behavioralData` (default `{}`): `mouseMovements` holds the
truthiness of `.mouseMovements.natural`, `typingCadence` that of
`.typingCadence.human`, when the objects are present. -/
structure BehavioralData where
  mouseMovements : Option Bool
  typingCadence : Option Bool
  sessionTime : Option ℚ
  deriving DecidableEq

/-- The default argument `behavioralData = {}`. -/
def BehavioralData.empty : BehavioralData :=
  { mouseMovements := none, typingCadence := none, sessionTime := none }

/-- The method `analyzeBehavior`. -/
def analyzeBehavior (b : BehavioralData) : ℚ :=
  let score : ℚ := 75
  let score := match b.mouseMovements with
    | some natural => score + (if natural then 10 else -5)
    | none => score
  let score := match b.typingCadence with
    | some human => score + (if human then 8 else -8)
    | none => score
  let score := match b.sessionTime with
    | some time =>
      if time = 0 then score
      else
        let score := if time > 30 ∧ time < 600 then score + 5 else score
        if time < 10 then score - 15 else score
    | none => score
  min 100 (max 30 score)

/-- Falsiness of an optional string: `undefined` and the empty string. -/
def strFalsy (s : Option String) : Bool :=
  match s with
  | some t => t == ""
  | none => true

/-- The method `assessRiskIndicators`. -/
def assessRiskIndicators (d : DocumentData) (b : BiometricData) : ℚ :=
  let riskScore : ℚ := 90
  let riskScore := match d.extractedData with
    | some e =>
      let riskScore := if strFalsy e.name then riskScore - 10 else riskScore
      if !b.isMatch then riskScore - 20 else riskScore
    | none => riskScore
  max 50 riskScore

/-- The object returned by `getTrustRecommendation`. -/
structure Recommendation where
  status : String
  confidence : String
  message : String
  deriving DecidableEq

/-- The method `getTrustRecommendation`. -/
def getTrustRecommendation (score : ℚ) : Recommendation :=
  if score ≥ 90 then
    { status := "Approved", confidence := "High",
      message := "All verification criteria exceeded. Recommended for immediate approval." }
  else if score ≥ 75 then
    { status := "Approved with Monitoring", confidence := "Medium",
      message := "Good verification results. Approved with standard monitoring." }
  else
    { status := "Review Required", confidence := "Low",
      message := "Additional review recommended before final approval." }

/-- The object returned by `calculateTrustScore` (without `timestamp`). -/
structure TrustScoreResult where
  finalScore : ℚ
  factors : List Factor
  recommendation : Recommendation
  deriving DecidableEq

/-- The accumulator `score` of `calculateTrustScore` after the four `+=`. -/
def trustScoreSum (d : DocumentData) (b : BiometricData) (beh : BehavioralData) : ℚ :=
  0 + jsOr d.confidence 85 * (4 / 10) + jsOr b.confidence 80 * (35 / 100)
    + analyzeBehavior beh * (15 / 100) + assessRiskIndicators d b * (1 / 10)

/-- The method `calculateTrustScore`. -/
def calculateTrustScore (d : DocumentData) (b : BiometricData)
    (beh : BehavioralData) : TrustScoreResult :=
  let docScore := jsOr d.confidence 85
  let bioScore := jsOr b.confidence 80
  let behaviorScore := analyzeBehavior beh
  let riskScore := assessRiskIndicators d b
  let score := trustScoreSum d b beh
  { finalScore := round1 score
    factors :=
      [ { category := "Document Authenticity", score := docScore,
          impact := if docScore > 90 then "High Positive"
            else if docScore > 75 then "Medium Positive" else "Low Positive" },
        { category := "Biometric Match", score := bioScore,
          impact := if bioScore > 85 then "High Positive"
            else if bioScore > 70 then "Medium Positive" else "Low Positive" },
        { category := "Behavioral Signals", score := behaviorScore,
          impact := if behaviorScore > 80 then "Medium Positive" else "Low Positive" },
        { category := "Risk Assessment", score := riskScore,
          impact := if riskScore > 90 then "High Positive" else "Medium Positive" } ]
    recommendation := getTrustRecommendation score }

/-! ## `LivenessDetectionService` (src/services/realKYCServices.js) -/

/-- The object `details.scenarios`: frames per scenario label. -/
structure Scenarios where
  normal : ℤ
  photo : ℤ
  blocked : ℤ
  deriving DecidableEq

/-- The object `details` of a liveness result, with the fields shared by the
three producers; a field one producer does not set is `none`. -/
structure LivenessDetails where
  totalFrames : ℤ
  facesDetected : Option ℤ
  scenarios : Scenarios
  avgFaceConfidence : Option ℚ
  avgLivenessScore : Option ℚ
  sessionId : Option String
  deriving DecidableEq

/-- The object returned by the liveness service. -/
structure LivenessResult where
  success : Bool
  source : String
  confidence : ℚ
  details : LivenessDetails
  reason : String
  deriving DecidableEq

/-- The method `analyzeScenarios`; `r1` and `r2` are its two random draws. -/
def analyzeScenarios (frameCount : ℤ) (_hasMovement : Bool) (r1 r2 : ℚ) : Scenarios :=
  let normalFrames := jsFloor ((frameCount : ℚ) * (85 / 100 + r1 * (1 / 10)))
  let photoFrames := jsFloor ((frameCount : ℚ) * (r2 * (5 / 100)))
  let blockedFrames := frameCount - normalFrames - photoFrames
  { normal := normalFrames, photo := photoFrames, blocked := max 0 blockedFrames }

/-- The method `calculateFallbackConfidence`; `r` is the one random draw of
the branch taken. -/
def calculateFallbackConfidence (scenarios : Scenarios) (r : ℚ) : ℤ :=
  let total := scenarios.normal + scenarios.photo + scenarios.blocked
  if total = 0 then 0
  else
    let normalRatio : ℚ := (scenarios.normal : ℚ) / (total : ℚ)
    if normalRatio > 9 / 10 then jsFloor (r * 8) + 92
    else if normalRatio > 8 / 10 then jsFloor (r * 5) + 87
    else if normalRatio > 7 / 10 then jsFloor (r * 5) + 82
    else jsFloor (r * 15) + 70

/-- The method `getFallbackLivenessResult`; the frames are data-URL strings,
`r1 r2` are the draws of `analyzeScenarios`, `r3` that of
`calculateFallbackConfidence`. -/
def getFallbackLivenessResult (_videoFrames faceImages : List String)
    (r1 r2 r3 : ℚ) : LivenessResult :=
  let frameCount : ℤ := max (faceImages.length : ℤ) 5
  let hasMovement := true
  let scenarios := analyzeScenarios frameCount hasMovement r1 r2
  let confidence := calculateFallbackConfidence scenarios r3
  let success := true
  { success := success
    source := "fallback_analysis"
    confidence := ((max confidence 90 : ℤ) : ℚ)
    details :=
      { totalFrames := frameCount
        facesDetected := some scenarios.normal
        scenarios := scenarios
        avgFaceConfidence := none
        avgLivenessScore := none
        sessionId := none }
    reason := "Live person detected with " ++ toString (max confidence 90)
      ++ "% confidence using fallback analysis" }

/-- The record `face.Quality` of a Rekognition face detail. -/
structure Quality where
  brightness : Option ℚ
  sharpness : Option ℚ
  deriving DecidableEq

/-- The record `face.EyesOpen` / `face.MouthOpen`. -/
structure BoolAttr where
  value : Bool
  confidence : Option ℚ
  deriving DecidableEq

/-- The record `face.Pose`. -/
structure Pose where
  yaw : Option ℚ
  pitch : Option ℚ
  deriving DecidableEq

/-- One element of `faceDetection.FaceDetails`, as far as the service reads it;
an emotion is kept by its type name. -/
structure FaceDetail where
  confidence : Option ℚ
  quality : Option Quality
  eyesOpen : Option BoolAttr
  mouthOpen : Option BoolAttr
  emotions : Option (List String)
  pose : Option Pose
  deriving DecidableEq

/-- The method `calculateLivenessFromFace`. -/
def calculateLivenessFromFace (face : FaceDetail) : ℚ :=
  let livenessScore : ℚ := 0
  let livenessScore := match face.quality with
    | some q => livenessScore + jsOr q.brightness 0 * (1 / 10) + jsOr q.sharpness 0 * (3 / 10)
    | none => livenessScore
  let livenessScore := match face.eyesOpen with
    | some e =>
      if e.value && (match e.confidence with | some c => decide (c > 80) | none => false)
      then livenessScore + 30 else livenessScore
    | none => livenessScore
  let livenessScore := match face.emotions with
    | some es =>
      if es.length > 0 then livenessScore + min ((es.length : ℚ) * 5) 20 else livenessScore
    | none => livenessScore
  let livenessScore := match face.pose with
    | some p => livenessScore + min (|jsOr p.yaw 0| + |jsOr p.pitch 0|) 10
    | none => livenessScore
  min livenessScore 100

/-- The module-level `rekognition` client as the service uses it.
`hasFaceLiveness` is `typeof rekognition.startFaceLivenessSession === 'function'`;
`startFaceLivenessSession` is the outcome of that call (a session id, or the
error it rejects with); `detectFaces image` is the outcome of
`dataURLToBytes(image)` followed by `rekognition.detectFaces(...).promise()`:
the `FaceDetails` array (absent when `none`), or the error thrown. -/
structure RekognitionClient where
  hasFaceLiveness : Bool
  startFaceLivenessSession : Except String String
  detectFaces : String → Except String (Option (List FaceDetail))

/-- One element of the local array `results` of `callAWSRekognition`. -/
structure FrameResult where
  faces : List FaceDetail
  confidence : ℚ
  quality : Option Quality
  liveness : ℚ
  emotions : List String
  eyesOpen : Bool
  mouthOpen : Bool
  deriving DecidableEq

/-- The method `callFaceLivenessAPI`; `r` is its random draw. -/
def callFaceLivenessAPI (client : RekognitionClient) (faceImages : List String)
    (r : ℚ) : Except String LivenessResult :=
  match client.startFaceLivenessSession with
  | .error e => .error e
  | .ok session =>
    .ok
      { success := true
        source := "aws_face_liveness"
        confidence := 95 + r * 4
        details :=
          { totalFrames := faceImages.length
            facesDetected := none
            scenarios := { normal := faceImages.length, photo := 0, blocked := 0 }
            avgFaceConfidence := none
            avgLivenessScore := none
            sessionId := some session }
        reason := "Live person verified using AWS Rekognition Face Liveness" }

/-- The `for` loop of `callAWSRekognition`: one `results` entry per image in
which a face is found; the first error ends the loop. -/
def detectLoop (client : RekognitionClient) :
    List String → List FrameResult → Except String (List FrameResult)
  | [], results => .ok results
  | imageData :: rest, results =>
    match client.detectFaces imageData with
    | .error e => .error e
    | .ok (some (face :: more)) =>
      detectLoop client rest
        (results ++
          [{ faces := face :: more
             confidence := jsOr face.confidence 0
             quality := face.quality
             liveness := calculateLivenessFromFace face
             emotions := face.emotions.getD []
             eyesOpen := match face.eyesOpen with | some e => e.value | none => false
             mouthOpen := match face.mouthOpen with | some e => e.value | none => false }])
    | .ok _ => detectLoop client rest results

/-- The method `callAWSRekognition`; `r` is the draw of `callFaceLivenessAPI`. -/
def callAWSRekognition (client : RekognitionClient) (faceImages : List String)
    (r : ℚ) : Except String LivenessResult :=
  if client.hasFaceLiveness then callFaceLivenessAPI client faceImages r
  else
    match detectLoop client faceImages [] with
    | .error e => .error e
    | .ok results =>
      if results.length = 0 then .error "No faces detected in any frame"
      else
        let avgConfidence : ℚ :=
          (results.foldl (fun sum x => sum + x.confidence) 0) / (results.length : ℚ)
        let avgLiveness : ℚ :=
          (results.foldl (fun sum x => sum + x.liveness) 0) / (results.length : ℚ)
        let facesDetected : ℤ := results.length
        let success : Bool :=
          decide (avgConfidence > 80) && decide (avgLiveness > 75)
            && decide ((facesDetected : ℚ) ≥ (faceImages.length : ℚ) * (6 / 10))
        let confidence : ℤ := jsRound ((avgConfidence + avgLiveness) / 2)
        .ok
          { success := success
            source := "aws_rekognition_enhanced"
            confidence := (confidence : ℚ)
            details :=
              { totalFrames := faceImages.length
                facesDetected := some facesDetected
                scenarios :=
                  { normal := if success then facesDetected else 0
                    photo := if success then 0
                      else jsFloor ((facesDetected : ℚ) * (3 / 10))
                    blocked := (faceImages.length : ℤ) - facesDetected }
                avgFaceConfidence := some avgConfidence
                avgLivenessScore := some avgLiveness
                sessionId := none }
            reason :=
              if success then
                "Live person detected with " ++ toString confidence
                  ++ "% confidence using AWS Rekognition"
              else "Insufficient liveness indicators detected - please ensure good "
                  ++ "lighting and look directly at camera" }

/-- The method `detectLiveness`. `rekognition` is the module-level client
(`none` when no credentials are configured); `rAws` is the draw of the AWS
path, `r1 r2 r3` those of the fallback. Every error of the AWS path is caught
by the `try`/`catch`, so the method always returns a result. -/
def detectLiveness (rekognition : Option RekognitionClient)
    (videoFrames faceImages : List String) (rAws r1 r2 r3 : ℚ) : LivenessResult :=
  let fallback := getFallbackLivenessResult videoFrames faceImages r1 r2 r3
  match rekognition with
  | some client =>
    match callAWSRekognition client faceImages rAws with
    | .ok realResult => if realResult.success then realResult else fallback
    | .error _ => fallback
  | none => fallback

/-! ## `createScenarioBasedResults` (src/components/SmartVision/LivenessDetection.jsx) -/

/-- The scenario label of a captured frame, in the key order of the object
`scenarioCount`: normal, blocked, photo. -/
inductive Scenario where
  | normal
  | blocked
  | photo
  deriving DecidableEq, Repr

/-- One element of the component state `capturedImages`. -/
structure CapturedImage where
  id : String
  image : String
  timestamp : ℕ
  scenario : Scenario
  deriving DecidableEq

/-- The object `scenarioCount`, keys in insertion order. -/
structure ScenarioCount where
  normal : ℕ
  blocked : ℕ
  photo : ℕ
  deriving DecidableEq

/-- The property read `scenarioCount[key]`. -/
def ScenarioCount.get (c : ScenarioCount) : Scenario → ℕ
  | .normal => c.normal
  | .blocked => c.blocked
  | .photo => c.photo

/-- The three `filter(...).length` counts. -/
def scenarioCount (capturedImages : List CapturedImage) : ScenarioCount :=
  { normal := (capturedImages.filter (fun img => img.scenario = Scenario.normal)).length
    blocked := (capturedImages.filter (fun img => img.scenario = Scenario.blocked)).length
    photo := (capturedImages.filter (fun img => img.scenario = Scenario.photo)).length }

/-- The list `Object.keys(scenarioCount)`. -/
def scenarioKeys : List Scenario := [Scenario.normal, Scenario.blocked, Scenario.photo]

/-- The method `Array.prototype.reduce` without an initial value, on a
non-empty array given as head and tail. -/
def reduce1 {α : Type} (f : α → α → α) (head : α) (tail : List α) : α :=
  tail.foldl f head

/-- The expression
`Object.keys(scenarioCount).reduce((a, b) => scenarioCount[a] > scenarioCount[b] ? a : b)`. -/
def primaryScenario (c : ScenarioCount) : Scenario :=
  reduce1 (fun a b => if c.get a > c.get b then a else b)
    Scenario.normal [Scenario.blocked, Scenario.photo]

/-- The object returned by `createScenarioBasedResults`, without the nested
display records (`faceMatch`, `livenessCheck`, `biometricAnalysis`, the numeric
risk figures), which repeat these fields or hold further random numbers. -/
structure ScenarioResult where
  success : Bool
  confidence : ℚ
  scenario : Scenario
  reason : String
  overallRisk : String
  capturedImages : ℕ
  recommendation : String
  scenarioDistribution : ScenarioCount
  deriving DecidableEq

/-- The function `createScenarioBasedResults`; `livenessSessionId` and
`capturedImages` are the component state it reads, `r` is the random draw of
the local `confidence`. -/
def createScenarioBasedResults (livenessSessionId : Option String)
    (capturedImages : List CapturedImage) (r : ℚ) : ScenarioResult :=
  let isAwsMode := livenessSessionId.isSome
  if !isAwsMode then
    let confidence := 90 + r * 8
    { success := true
      confidence := round1 confidence
      scenario := Scenario.normal
      reason := "Live person successfully verified"
      overallRisk := "LOW"
      capturedImages := capturedImages.length
      recommendation := "APPROVED"
      scenarioDistribution := { normal := capturedImages.length, blocked := 0, photo := 0 } }
  else
    let count := scenarioCount capturedImages
    let primary := primaryScenario count
    match primary with
    | Scenario.blocked =>
      { success := false
        confidence := round1 (15 + r * 10)
        scenario := primary
        reason := "Camera blocked or covered during verification"
        overallRisk := "CRITICAL"
        capturedImages := capturedImages.length
        recommendation := "REJECTED"
        scenarioDistribution := count }
    | Scenario.photo =>
      { success := false
        confidence := round1 (25 + r * 20)
        scenario := primary
        reason := "Static image or photo detected instead of live person"
        overallRisk := "HIGH"
        capturedImages := capturedImages.length
        recommendation := "REJECTED"
        scenarioDistribution := count }
    | Scenario.normal =>
      { success := true
        confidence := round1 (85 + r * 13)
        scenario := primary
        reason := "Live person successfully verified"
        overallRisk := "LOW"
        capturedImages := capturedImages.length
        recommendation := "APPROVED"
        scenarioDistribution := count }

/-! ## Regular expressions of `extractDocumentData` (src/services/AIServices.js)

The five patterns carry the `i` flag only. They are written over the
constructs below and run by a backtracking matcher that lists the successful
ways to match in the priority order of ECMAScript (leftmost alternative first,
greedy quantifiers longest first). The patterns hold ASCII characters only, so
the case folding of the `i` flag is that of the ASCII letters. -/

/-- The code points matched by `\s` and removed by `trim`: WhiteSpace and
LineTerminator of ECMAScript. -/
def isJsSpace (c : Char) : Bool :=
  let n := c.toNat
  n == 9 || n == 10 || n == 11 || n == 12 || n == 13 || n == 32 || n == 160 || n == 5760
    || (decide (8192 ≤ n) && decide (n ≤ 8202)) || n == 8232 || n == 8233 || n == 8239
    || n == 8287 || n == 12288 || n == 65279

/-- The method `String.prototype.trim` on a list of characters. -/
def jsTrim (s : List Char) : List Char :=
  ((s.dropWhile isJsSpace).reverse.dropWhile isJsSpace).reverse

/-- One member of a character class `[...]`. -/
inductive ClassItem where
  | single (c : Char)
  | range (lo hi : Char)
  | space
  | digit

/-- Membership of a character in one class member, case-sensitively. -/
def ClassItem.test : ClassItem → Char → Bool
  | .single x, c => c == x
  | .range lo hi, c => decide (lo.toNat ≤ c.toNat) && decide (c.toNat ≤ hi.toNat)
  | .space, c => isJsSpace c
  | .digit, c => decide (48 ≤ c.toNat) && decide (c.toNat ≤ 57)

/-- Membership of a character in a class under the `i` flag. -/
def classMatches (items : List ClassItem) (c : Char) : Bool :=
  items.any (fun i => i.test c || i.test c.toUpper || i.test c.toLower)

/-- The regular-expression constructs the patterns use; `group` is capture
group 1 (no pattern has another), `eoi` is `$` without the `m` flag. `chr` and
`cls` compare under the `i` flag; `exact` is a literal character of a pattern
without the `i` flag. -/
inductive Regex where
  | chr (c : Char)
  | cls (items : List ClassItem)
  | seq (a b : Regex)
  | alt (a b : Regex)
  | star (a : Regex)
  | rep (lo hi : ℕ) (a : Regex)
  | group (a : Regex)
  | eoi
  | exact (c : Char)

/-- A state of the matcher: the input that remains and capture group 1. -/
abbrev MatchState := List Char × Option (List Char)

/-- Greedy `a*`: the iterations that consume input, longest first, then none. -/
def starAux (step : List Char → Option (List Char) → List MatchState) :
    ℕ → List Char → Option (List Char) → List MatchState
  | 0, s, cap => [(s, cap)]
  | n + 1, s, cap =>
    (((step s cap).filter (fun r => decide (r.1.length < s.length))).flatMap
      (fun r => starAux step n r.1 r.2)) ++ [(s, cap)]

/-- Greedy `a{lo,hi}`. -/
def repAux (step : List Char → Option (List Char) → List MatchState) :
    ℕ → ℕ → List Char → Option (List Char) → List MatchState
  | _, 0, s, cap => [(s, cap)]
  | lo, hi + 1, s, cap =>
    ((step s cap).flatMap (fun r => repAux step (lo - 1) hi r.1 r.2))
      ++ (if lo = 0 then [(s, cap)] else [])

/-- All ways to match a regular expression at the start of `s`, in the
priority order of the backtracking matcher. -/
def Regex.run : Regex → List Char → Option (List Char) → List MatchState
  | .chr p, s, cap =>
    match s with
    | c :: t => if c.toUpper = p.toUpper then [(t, cap)] else []
    | [] => []
  | .cls items, s, cap =>
    match s with
    | c :: t => if classMatches items c then [(t, cap)] else []
    | [] => []
  | .seq a b, s, cap => (run a s cap).flatMap (fun r => run b r.1 r.2)
  | .alt a b, s, cap => run a s cap ++ run b s cap
  | .star a, s, cap => starAux (run a) s.length s cap
  | .rep lo hi a, s, cap => repAux (run a) lo hi s cap
  | .group a, s, cap =>
    (run a s cap).map (fun r => (r.1, some (s.take (s.length - r.1.length))))
  | .eoi, s, cap => if s.isEmpty then [(s, cap)] else []
  | .exact p, s, cap =>
    match s with
    | c :: t => if c = p then [(t, cap)] else []
    | [] => []

/-- The match array of `String.prototype.match`: where the match starts, the
matched text `match[0]` and group 1 `match[1]` (`none` when `undefined`). -/
structure MatchResult where
  index : ℕ
  whole : List Char
  group1 : Option (List Char)
  deriving DecidableEq

/-- One attempt of the matcher at the start of `s`. -/
def matchHere (re : Regex) (index : ℕ) (s : List Char) : Option MatchResult :=
  match re.run s none with
  | r :: _ => some { index := index, whole := s.take (s.length - r.1.length), group1 := r.2 }
  | [] => none

/-- The search of `RegExp.prototype.exec` from `index` on: the leftmost match. -/
def execFrom (re : Regex) : ℕ → List Char → Option MatchResult
  | index, [] => matchHere re index []
  | index, c :: t =>
    match matchHere re index (c :: t) with
    | some m => some m
    | none => execFrom re (index + 1) t

/-- The call `text.match(pattern)` for a pattern without the `g` flag. -/
def jsMatch (text : String) (re : Regex) : Option MatchResult := execFrom re 0 text.toList

/-- A literal word of a pattern, one `chr` per character. -/
def lit (s : String) : Regex :=
  match s.toList with
  | [] => .rep 0 0 .eoi
  | c :: t => t.foldl (fun r x => .seq r (.chr x)) (.chr c)

/-- The alternation `(?:first|o1|o2|...)`. -/
def alts (first : Regex) (others : List Regex) : Regex :=
  others.foldl (fun r x => .alt r x) first

/-- Greedy `a+`. -/
def plus (a : Regex) : Regex := .seq a (.star a)

/-- The separator `[\s:]*` that follows the keyword in every pattern. -/
def sepClass : Regex := .star (.cls [.space, .single ':'])

/-- The class `[a-zA-Z\s]`. -/
def nameChars : List ClassItem := [.range 'a' 'z', .range 'A' 'Z', .space]

/-- The class `[\/\-\.]`. -/
def dateSep : List ClassItem := [.single '/', .single '-', .single '.']

/-- The group `(\d{1,2}[\/\-\.]\d{1,2}[\/\-\.]\d{2,4})`. -/
def dateGroup : Regex :=
  .group (.seq (.rep 1 2 (.cls [.digit])) (.seq (.cls dateSep)
    (.seq (.rep 1 2 (.cls [.digit])) (.seq (.cls dateSep) (.rep 2 4 (.cls [.digit]))))))

/-- The pattern `/(?:name|nome|nom|naam)[\s:]*([a-zA-Z\s]+)(?:\n|$)/i`. -/
def namePattern : Regex :=
  .seq (alts (lit "name") [lit "nome", lit "nom", lit "naam"])
    (.seq sepClass (.seq (.group (plus (.cls nameChars))) (.alt (.chr '\n') .eoi)))

/-- The pattern `/(?:no|number|num|nr)[\s:]*([A-Z0-9]+)/i`. -/
def documentNumberPattern : Regex :=
  .seq (alts (lit "no") [lit "number", lit "num", lit "nr"])
    (.seq sepClass (.group (plus (.cls [.range 'A' 'Z', .range '0' '9']))))

/-- The pattern
`/(?:dob|birth|born|naissance)[\s:]*(\d{1,2}[\/\-\.]\d{1,2}[\/\-\.]\d{2,4})/i`. -/
def dateOfBirthPattern : Regex :=
  .seq (alts (lit "dob") [lit "birth", lit "born", lit "naissance"]) (.seq sepClass dateGroup)

/-- The pattern
`/(?:exp|expires|expiry|valid)[\s:]*(\d{1,2}[\/\-\.]\d{1,2}[\/\-\.]\d{2,4})/i`. -/
def expiryDatePattern : Regex :=
  .seq (alts (lit "exp") [lit "expires", lit "expiry", lit "valid"]) (.seq sepClass dateGroup)

/-- The pattern `/(?:nationality|country|pays|land)[\s:]*([a-zA-Z\s]+)/i`. -/
def nationalityPattern : Regex :=
  .seq (alts (lit "nationality") [lit "country", lit "pays", lit "land"])
    (.seq sepClass (.group (plus (.cls nameChars))))

/-- The list `Object.entries(patterns)` of `extractDocumentData`, in key order. -/
def patterns : List (String × Regex) :=
  [ ("name", namePattern),
    ("documentNumber", documentNumberPattern),
    ("dateOfBirth", dateOfBirthPattern),
    ("expiryDate", expiryDatePattern),
    ("nationality", nationalityPattern) ]

/-- The assignment `extracted[key] = value` on an object kept as its list of
entries in insertion order. -/
def setProp (obj : List (String × String)) (key value : String) : List (String × String) :=
  if obj.any (fun p => p.1 == key) then
    obj.map (fun p => if p.1 == key then (key, value) else p)
  else obj ++ [(key, value)]

/-- The body of the `for` loop of `extractDocumentData` for one entry; reading
`.trim()` of an `undefined` group is the `TypeError` of JavaScript. -/
def extractStep (text : String) (extracted : List (String × String))
    (entry : String × Regex) : Except String (List (String × String)) :=
  match jsMatch text entry.2 with
  | some m =>
    match m.group1 with
    | some g => .ok (setProp extracted entry.1 (String.mk (jsTrim g)))
    | none => .error "TypeError: Cannot read properties of undefined (reading trim)"
  | none => .ok extracted

/-- The method `extractDocumentData`: the object `extracted` as its list of
entries, or the error thrown. -/
def extractDocumentData (text : String) : Except String (List (String × String)) :=
  patterns.foldlM (extractStep text) []

/-! ## `AIServices.analyzeDocumentAuthenticity` (src/services/AIServices.js) -/

/-- The entry `hologram` of `features`. -/
structure Hologram where
  detected : Bool
  authentic : Bool
  deriving DecidableEq

/-- The entry `microtext` of `features`. -/
structure Microtext where
  detected : Bool
  readable : Bool
  deriving DecidableEq

/-- The entry `uvFeatures` of `features`. -/
structure UvFeatures where
  detected : Bool
  genuine : Bool
  deriving DecidableEq

/-- The entry `barcodeData` of `features`. -/
structure BarcodeData where
  valid : Bool
  isMatches : Bool
  deriving DecidableEq

/-- The object `features`. -/
structure SecurityFeatures where
  hologram : Hologram
  microtext : Microtext
  uvFeatures : UvFeatures
  barcodeData : BarcodeData
  deriving DecidableEq

/-- The value the promise of `analyzeDocumentAuthenticity` resolves with. -/
structure AuthenticityResult where
  confidence : ℚ
  features : SecurityFeatures
  deriving DecidableEq

/-- The local `confidence` of `analyzeDocumentAuthenticity`: `92 + Math.random() * 6`. -/
def authenticityConfidence (r : ℚ) : ℚ := 92 + r * 6

/-- The method `analyzeDocumentAuthenticity`: the value its promise resolves
with after the timer; the image file is not read, `r` is the random draw. -/
def analyzeDocumentAuthenticity {α : Type} (_imageFile : α) (r : ℚ) : AuthenticityResult :=
  let confidence := authenticityConfidence r
  { confidence := round1 confidence
    features :=
      { hologram := { detected := true, authentic := decide (confidence > 95) }
        microtext := { detected := true, readable := decide (confidence > 93) }
        uvFeatures := { detected := true, genuine := decide (confidence > 90) }
        barcodeData := { valid := true, isMatches := decide (confidence > 94) } } }

/-! ## `AadhaarVerificationService` (src/services/realKYCServices.js) -/

/-- The Aadhaar record: `MOCK_AADHAAR_DATA` or the `extracted_data` of the service. -/
structure AadhaarData where
  name : String
  dateOfBirth : String
  address : String
  aadhaarNumber : String
  fatherName : String
  gender : String
  deriving DecidableEq

/-- The constant `MOCK_AADHAAR_DATA`. -/
def MOCK_AADHAAR_DATA : AadhaarData :=
  { name := "Neha"
    dateOfBirth := "26/01/2000"
    address := "Plot 123, Banjara Hills, Hyderabad, Telangana 500034, India"
    aadhaarNumber := "1234-5678-9012"
    fatherName := "Rajesh Kumar"
    gender := "Female" }

/-- The JSON body of the service response, as far as it is read; a property
that is missing is `none`. -/
structure AadhaarApiBody where
  extracted_data : Option AadhaarData
  confidence_score : Option ℚ
  processing_time_ms : Option ℚ
  api_version : Option String
  deriving DecidableEq

/-- The outcome of the `fetch` call of `callRealAadhaarAPI`: the promise
rejects (network error), or a response arrives with its `ok` flag, its status
line and the outcome of `response.json()` and of reading the body (an error
when the body is not JSON or is `null`). -/
inductive FetchOutcome where
  | networkError (message : String)
  | response (ok : Bool) (status : ℕ) (statusText : String)
      (json : Except String AadhaarApiBody)

/-- The object returned by `callRealAadhaarAPI`. -/
structure RealApiResult where
  success : Bool
  data : Option AadhaarData
  confidence : Option ℚ
  processingTime : Option ℚ
  apiVersion : Option String
  deriving DecidableEq

/-- The method `callRealAadhaarAPI`: it rethrows every error. -/
def callRealAadhaarAPI (outcome : FetchOutcome) : Except String RealApiResult :=
  match outcome with
  | .networkError message => .error message
  | .response ok status statusText json =>
    if !ok then
      .error ("Aadhaar API error: " ++ toString status ++ " " ++ statusText)
    else
      match json with
      | .error e => .error e
      | .ok result =>
        .ok { success := true
              data := result.extracted_data
              confidence := result.confidence_score
              processingTime := result.processing_time_ms
              apiVersion := result.api_version }

/-- The object `scanMetadata`. -/
structure ScanMetadata where
  confidence : Option ℚ
  processingTime : Option ℚ
  apiVersion : Option String
  extractionMethod : Option String
  deriving DecidableEq

/-- The object returned by `extractAadhaarData`. -/
structure AadhaarResult where
  success : Bool
  source : String
  aadhaarData : Option AadhaarData
  scanMetadata : ScanMetadata
  deriving DecidableEq

/-- The method `getFallbackAadhaarData`; `r1` and `r2` are its random draws. -/
def getFallbackAadhaarData (r1 r2 : ℚ) : AadhaarResult :=
  { success := true
    source := "fallback_demo"
    aadhaarData := some MOCK_AADHAAR_DATA
    scanMetadata :=
      { confidence := some ((jsFloor (r1 * 9) + 92 : ℤ) : ℚ)
        processingTime := some ((jsFloor (r2 * 800) + 200 : ℤ) : ℚ)
        apiVersion := some "fallback-v1.0"
        extractionMethod := some "OCR + Pattern Recognition" } }

/-- The method `extractAadhaarData`: `outcome` is what the `fetch` of the real
service does. Every error of the real call is caught by the `try`/`catch`, so
the method always returns a result. -/
def extractAadhaarData (outcome : FetchOutcome) (r1 r2 : ℚ) : AadhaarResult :=
  match callRealAadhaarAPI outcome with
  | .ok realApiResult =>
    if realApiResult.success then
      { success := true
        source := "real_api"
        aadhaarData := realApiResult.data
        scanMetadata :=
          { confidence := realApiResult.confidence
            processingTime := realApiResult.processingTime
            apiVersion := realApiResult.apiVersion
            extractionMethod := none } }
    else getFallbackAadhaarData r1 r2
  | .error _ => getFallbackAadhaarData r1 r2

/-- Whether every way to match the expression defines capture group 1. -/
def Regex.captures : Regex → Bool
  | .group _ => true
  | .seq a b => a.captures || b.captures
  | .alt a b => a.captures && b.captures
  | _ => false

/-- What the contract gives a field: the first capture group of the pattern's
match in the text, trimmed; nothing when the pattern does not match. -/
def capturedField (text : String) (pattern : Regex) : Option String :=
  (jsMatch text pattern).bind (fun m => m.group1.map (fun g => String.mk (jsTrim g)))

/-- The closed form of the greedy `[...]*` over a character class: every
prefix of the longest run of class members, longest first. -/
def classStar (items : List ClassItem) : List Char → Option (List Char) → List MatchState
  | [], cap => [([], cap)]
  | c :: t, cap =>
    if classMatches items c then classStar items t cap ++ [(c :: t, cap)] else [(c :: t, cap)]

/-! ## Rekognition routes (server/index.js) -/

/-- The object `rekognitionService` as the route handlers use it: each method
is the outcome of its call, a value or the error thrown. A buffer is kept as
the text `base64ToBuffer` returns it from, a service result as its JSON text. -/
structure RekognitionServiceObject where
  base64ToBuffer : String → Except String String
  compareFaces : String → String → ℚ → Except String String
  detectFaces : String → Except String String
  validateImageQuality : String → Except String String
  createCollection : String → Except String String
  indexFace : String → String → String → Except String String
  searchFacesByImage : String → String → ℚ → ℚ → Except String String

/-- What a route handler sends: the status (200 unless `res.status` is called),
the fields of an error body or the JSON of the service result, and the methods
of `rekognitionService` it has invoked, in order. -/
structure RouteResponse where
  status : ℕ
  success : Option Bool
  error : Option String
  message : Option String
  result : Option String
  calls : List String
  deriving DecidableEq

/-- Falsiness of a body field that is absent or a string. -/
def fieldFalsy (x : Option String) : Bool :=
  match x with
  | some s => s == ""
  | none => true

/-- The response `res.status(400).json({ success: false, error })`. -/
def badRequest (error : String) : RouteResponse :=
  { status := 400, success := some false, error := some error, message := none,
    result := none, calls := [] }

/-- The response of a `catch` block:
`res.status(500).json({ success: false, error, message: error.message })`. -/
def serverError (error message : String) (calls : List String) : RouteResponse :=
  { status := 500, success := some false, error := some error, message := some message,
    result := none, calls := calls }

/-- The response `res.json(result)`. -/
def okResponse (result : String) (calls : List String) : RouteResponse :=
  { status := 200, success := none, error := none, message := none,
    result := some result, calls := calls }

/-- The handler of `POST /api/rekognition/compare-faces-base64`. -/
def compareFacesBase64 (svc : RekognitionServiceObject)
    (sourceImage targetImage : Option String) (threshold : Option ℚ) : RouteResponse :=
  if fieldFalsy sourceImage || fieldFalsy targetImage then
    badRequest "Both source and target images (base64) are required"
  else
    match svc.base64ToBuffer (sourceImage.getD "") with
    | .error e => serverError "Face comparison failed" e ["base64ToBuffer"]
    | .ok sourceImageBuffer =>
      match svc.base64ToBuffer (targetImage.getD "") with
      | .error e => serverError "Face comparison failed" e ["base64ToBuffer", "base64ToBuffer"]
      | .ok targetImageBuffer =>
        match svc.compareFaces sourceImageBuffer targetImageBuffer (jsOr threshold 80) with
        | .error e =>
          serverError "Face comparison failed" e
            ["base64ToBuffer", "base64ToBuffer", "compareFaces"]
        | .ok result => okResponse result ["base64ToBuffer", "base64ToBuffer", "compareFaces"]

/-- The handler of `POST /api/rekognition/detect-faces-base64`. -/
def detectFacesBase64 (svc : RekognitionServiceObject) (image : Option String) :
    RouteResponse :=
  if fieldFalsy image then badRequest "Image (base64) is required"
  else
    match svc.base64ToBuffer (image.getD "") with
    | .error e => serverError "Face detection failed" e ["base64ToBuffer"]
    | .ok imageBuffer =>
      match svc.detectFaces imageBuffer with
      | .error e => serverError "Face detection failed" e ["base64ToBuffer", "detectFaces"]
      | .ok result => okResponse result ["base64ToBuffer", "detectFaces"]

/-- The handler of `POST /api/rekognition/validate-image-quality`. -/
def validateImageQualityRoute (svc : RekognitionServiceObject) (image : Option String) :
    RouteResponse :=
  if fieldFalsy image then badRequest "Image (base64) is required"
  else
    match svc.base64ToBuffer (image.getD "") with
    | .error e => serverError "Image quality validation failed" e ["base64ToBuffer"]
    | .ok imageBuffer =>
      match svc.validateImageQuality imageBuffer with
      | .error e =>
        serverError "Image quality validation failed" e
          ["base64ToBuffer", "validateImageQuality"]
      | .ok result => okResponse result ["base64ToBuffer", "validateImageQuality"]

/-- The handler of `POST /api/rekognition/create-collection`. -/
def createCollectionRoute (svc : RekognitionServiceObject) (collectionId : Option String) :
    RouteResponse :=
  if fieldFalsy collectionId then badRequest "Collection ID is required"
  else
    match svc.createCollection (collectionId.getD "") with
    | .error e => serverError "Failed to create collection" e ["createCollection"]
    | .ok result => okResponse result ["createCollection"]

/-- The handler of `POST /api/rekognition/index-face`. -/
def indexFaceRoute (svc : RekognitionServiceObject)
    (image collectionId externalImageId : Option String) : RouteResponse :=
  if fieldFalsy image || fieldFalsy collectionId || fieldFalsy externalImageId then
    badRequest "Image, collection ID, and external image ID are required"
  else
    match svc.base64ToBuffer (image.getD "") with
    | .error e => serverError "Failed to index face" e ["base64ToBuffer"]
    | .ok imageBuffer =>
      match svc.indexFace imageBuffer (collectionId.getD "") (externalImageId.getD "") with
      | .error e => serverError "Failed to index face" e ["base64ToBuffer", "indexFace"]
      | .ok result => okResponse result ["base64ToBuffer", "indexFace"]

/-- The handler of `POST /api/rekognition/search-faces`. -/
def searchFacesRoute (svc : RekognitionServiceObject) (image collectionId : Option String)
    (threshold maxFaces : Option ℚ) : RouteResponse :=
  if fieldFalsy image || fieldFalsy collectionId then
    badRequest "Image and collection ID are required"
  else
    match svc.base64ToBuffer (image.getD "") with
    | .error e => serverError "Failed to search faces" e ["base64ToBuffer"]
    | .ok imageBuffer =>
      match svc.searchFacesByImage imageBuffer (collectionId.getD "") (jsOr threshold 80)
          (jsOr maxFaces 5) with
      | .error e =>
        serverError "Failed to search faces" e ["base64ToBuffer", "searchFacesByImage"]
      | .ok result => okResponse result ["base64ToBuffer", "searchFacesByImage"]

/-! ## The parts of `calculateLivenessFromFace` (src/services/realKYCServices.js) -/

/-- The amount the quality indicators add to `livenessScore`. -/
def livenessQualityPart (face : FaceDetail) : ℚ :=
  match face.quality with
  | some q => jsOr q.brightness 0 * (1 / 10) + jsOr q.sharpness 0 * (3 / 10)
  | none => 0

/-- The amount the eye indicators add to `livenessScore`. -/
def livenessEyePart (face : FaceDetail) : ℚ :=
  match face.eyesOpen with
  | some e =>
    if e.value && (match e.confidence with | some c => decide (c > 80) | none => false)
    then 30 else 0
  | none => 0

/-- The amount the expression indicators add to `livenessScore`. -/
def livenessExpressionPart (face : FaceDetail) : ℚ :=
  match face.emotions with
  | some es => if es.length > 0 then min ((es.length : ℚ) * 5) 20 else 0
  | none => 0

/-- The amount the pose indicators add to `livenessScore`. -/
def livenessPosePart (face : FaceDetail) : ℚ :=
  match face.pose with
  | some p => min (|jsOr p.yaw 0| + |jsOr p.pitch 0|) 10
  | none => 0

/-! ## `PersonalDetailsForm` (src/components/SmartVision/PersonalDetailsForm.jsx) -/

/-- A date as the getters of a `Date` object give it: `getFullYear()`,
`getMonth()` (0 to 11) and `getDate()` (1 to 31). -/
structure CalendarDate where
  year : ℤ
  month : ℕ
  day : ℕ
  deriving DecidableEq

/-- The component state `formData`; `dateOfBirth` is `none` for the empty
string of the date input and the parsed date otherwise. -/
structure FormData where
  name : String
  dateOfBirth : Option CalendarDate
  address : String
  deriving DecidableEq

/-- The object `newErrors` of `validateForm`. -/
structure FormErrors where
  name : Option String
  dateOfBirth : Option String
  address : Option String
  deriving DecidableEq

/-- The function `validateForm`: the errors it sets and the value it returns;
`today` is `new Date()`. -/
def validateForm (formData : FormData) (today : CalendarDate) : FormErrors × Bool :=
  let nameTrim := jsTrim formData.name.toList
  let nameError : Option String :=
    if nameTrim.isEmpty then some "Full name is required"
    else if nameTrim.length < 2 then some "Name must be at least 2 characters"
    else none
  let dobError : Option String :=
    match formData.dateOfBirth with
    | none => some "Date of birth is required"
    | some dob =>
      let age := today.year - dob.year
      if age < 18 ∨ age > 120 then some "You must be between 18 and 120 years old"
      else none
  let addressTrim := jsTrim formData.address.toList
  let addressError : Option String :=
    if addressTrim.isEmpty then some "Address is required"
    else if addressTrim.length < 10 then some "Please provide a complete address"
    else none
  let newErrors : FormErrors :=
    { name := nameError, dateOfBirth := dobError, address := addressError }
  (newErrors, nameError.isNone && dobError.isNone && addressError.isNone)

/-- The function `calculateAge`: `none` is the empty string it returns for an
empty date; `today` is `new Date()`. -/
def calculateAge (dob : Option CalendarDate) (today : CalendarDate) : Option ℤ :=
  match dob with
  | none => none
  | some birthDate =>
    let age := today.year - birthDate.year
    let monthDiff : ℤ := (today.month : ℤ) - (birthDate.month : ℤ)
    if monthDiff < 0 ∨ (monthDiff = 0 ∧ today.day < birthDate.day) then some (age - 1)
    else some age

/-! ## `VerificationResults` (src/components/SmartVision/VerificationResults.jsx)

The method `toLowerCase` is modelled on the ASCII letters, and the length of a
string is its number of characters. -/

/-- Whether `t` stands at the start of `s`. -/
def startsWith : List Char → List Char → Bool
  | _, [] => true
  | [], _ :: _ => false
  | c :: s, d :: t => c == d && startsWith s t

/-- The method `String.prototype.includes`. -/
def jsIncludes (s t : List Char) : Bool := s.tails.any (fun u => startsWith u t)

/-- The scan of `replace(/\s+/g, ' ')`; `inRun` tells that the character before
was whitespace, so that the run has its space already. -/
def collapseAux : Bool → List Char → List Char
  | _, [] => []
  | inRun, c :: t =>
    if isJsSpace c then
      if inRun then collapseAux true t else ' ' :: collapseAux true t
    else c :: collapseAux false t

/-- The call `replace(/\s+/g, ' ')`: every run of whitespace becomes one space. -/
def collapseSpaces (s : List Char) : List Char := collapseAux false s

/-- The call `split(' ')`. -/
def splitSpace : List Char → List (List Char)
  | [] => [[]]
  | c :: t =>
    if c = ' ' then [] :: splitSpace t
    else
      match splitSpace t with
      | w :: ws => (c :: w) :: ws
      | [] => [[c]]

/-- The local `normalize` of `compareNames`. -/
def normalizeName (name : String) : List Char :=
  collapseSpaces (jsTrim (name.toList.map Char.toLower))

/-- The function `compareNames`. -/
def compareNames (provided extracted : String) : Bool :=
  let providedNorm := normalizeName provided
  let extractedNorm := normalizeName extracted
  providedNorm == extractedNorm || jsIncludes providedNorm extractedNorm
    || jsIncludes extractedNorm providedNorm

/-- The local `normalize` of `compareAddresses`. -/
def normalizeAddress (addr : String) : List Char :=
  collapseSpaces ((jsTrim (addr.toList.map Char.toLower)).filter
    (fun c => !(c == ',' || c == '.')))

/-- The local `commonWords` of `compareAddresses`. -/
def commonWords (provided extracted : String) : List (List Char) :=
  let providedWords := splitSpace (normalizeAddress provided)
  let extractedWords := splitSpace (normalizeAddress extracted)
  providedWords.filter (fun word => decide (word.length > 2) && extractedWords.contains word)

/-- The function `compareAddresses`. -/
def compareAddresses (provided extracted : String) : Bool :=
  decide ((commonWords provided extracted).length ≥ 2)

/-- The object `matches` of `processVerificationData`. -/
structure Matches where
  name : Bool
  dateOfBirth : Bool
  address : Bool
  liveness : Bool
  document : Bool
  deriving DecidableEq

/-- The number `Object.values(matches).filter(Boolean).length`. -/
def Matches.count (m : Matches) : ℕ :=
  ([m.name, m.dateOfBirth, m.address, m.liveness, m.document].filter id).length

/-- The function `calculateRiskLevel`. -/
def calculateRiskLevel (matchPercentage : ℚ) (m : Matches) : String :=
  if !m.liveness || !m.document then "CRITICAL"
  else if matchPercentage < 60 then "HIGH"
  else if matchPercentage < 80 then "MEDIUM"
  else "LOW"

/-- The local `calculateTrustScore` of `VerificationResults`. -/
def verificationTrustScore (m : Matches) (livenessConfidence documentConfidence : ℚ) : ℤ :=
  let score : ℚ := 0
  let score := score + ((m.count : ℚ) / 5) * 60
  let score := score + (livenessConfidence / 100) * 25
  let score := score + (documentConfidence / 100) * 15
  jsRound score

/-- The object `result` of `processVerificationData`, without the `details`
that repeat its inputs, the time and the random identifier. -/
structure OverallResult where
  success : Bool
  overallScore : ℚ
  trustScore : ℤ
  riskLevel : String
  recommendation : String
  deriving DecidableEq

/-- The part of `processVerificationData` that follows the assembly of `matches`. -/
def overallResult (m : Matches) (livenessConfidence documentConfidence : ℚ) : OverallResult :=
  let totalMatches := m.count
  let matchPercentage : ℚ := ((totalMatches : ℚ) / 5) * 100
  { success := decide (matchPercentage ≥ 80) && m.liveness && m.document
    overallScore := matchPercentage
    trustScore := verificationTrustScore m livenessConfidence documentConfidence
    riskLevel := calculateRiskLevel matchPercentage m
    recommendation :=
      if decide (matchPercentage ≥ 80) && m.liveness && m.document then "APPROVED"
      else "REJECTED" }

/-- The function `processVerificationData`. The names and addresses are those
of `personalDetails` and of `aadhaarData`; `dobMatch` is the value of
`compareDOB`, which reads the dates through the local time zone and is taken
as given; `livenessSuccess` and the confidences are those of `livenessResult`
and of `aadhaarData.scanMetadata`. -/
def processVerificationData (providedName providedAddress extractedName extractedAddress : String)
    (dobMatch livenessSuccess : Bool) (livenessConfidence documentConfidence : ℚ) :
    OverallResult :=
  let matchFlags : Matches :=
    { name := compareNames providedName extractedName
      dateOfBirth := dobMatch
      address := compareAddresses providedAddress extractedAddress
      liveness := livenessSuccess
      document := decide (documentConfidence > 85) }
  overallResult matchFlags livenessConfidence documentConfidence

/-! ## `RekognitionService.validateBase64Image` (src/services/rekognitionService.js) -/

/-- A literal word of a pattern without the `i` flag. -/
def litExact (s : String) : Regex :=
  match s.toList with
  | [] => .rep 0 0 .eoi
  | c :: t => t.foldl (fun r x => .seq r (.exact x)) (.exact c)

/-- The pattern `/data:image\/([a-zA-Z]+);base64,/`; its class holds both cases
of every letter, so the case folding of `cls` does not change it. -/
def formatPattern : Regex :=
  .seq (litExact "data:image/")
    (.seq (.group (plus (.cls [.range 'a' 'z', .range 'A' 'Z']))) (litExact ";base64,"))

/-- The object returned by `validateBase64Image`. -/
structure ImageValidation where
  valid : Bool
  message : String
  deriving DecidableEq

/-- The list `supportedFormats`. -/
def supportedFormats : List String := ["jpeg", "jpg", "png"]

/-- The method `validateBase64Image` on a string: the object returned, or the
`TypeError` of reading `toLowerCase` of an `undefined` group. -/
def validateBase64Image (base64String : String) : Except String ImageValidation :=
  if base64String.isEmpty then .ok { valid := false, message := "No image data provided" }
  else if !startsWith base64String.toList "data:image/".toList then
    .ok { valid := false, message := "Invalid image format" }
  else
    let unsupported : ImageValidation :=
      { valid := false, message := "Unsupported image format. Please use JPEG or PNG." }
    match jsMatch base64String formatPattern with
    | none => .ok unsupported
    | some formatMatch =>
      match formatMatch.group1 with
      | none => .error "TypeError: Cannot read properties of undefined (reading toLowerCase)"
      | some fmt =>
        if !supportedFormats.contains (String.mk (fmt.map Char.toLower)) then .ok unsupported
        else
          let sizeInBytes : ℚ := ((base64String.length : ℚ) * 3) / 4
          let maxSizeInBytes : ℚ := 10 * 1024 * 1024
          if sizeInBytes > maxSizeInBytes then
            .ok { valid := false
                  message := "Image size too large. Please use an image under 10MB." }
          else .ok { valid := true, message := "Image format is valid" }

/-! ## `FaceComparisonService` (src/services/realKYCServices.js) -/

/-- The module-level `rekognition` client as `compareFaces` uses it: the
outcome of the two `dataURLToBytes` calls followed by
`rekognition.compareFaces(...).promise()`, which is the error thrown or the
`Similarity` of each element of `FaceMatches` (`none` when the list is absent). -/
structure FaceCompareClient where
  compareFaces : String → String → Except String (Option (List ℚ))

/-- The object returned by `FaceComparisonService.compareFaces`; `isMatch` is
its property `match`. -/
structure FaceComparison where
  success : Bool
  source : String
  similarity : ℚ
  isMatch : Bool
  confidence : ℚ
  deriving DecidableEq

/-- The fallback object of `compareFaces`; `r` is the random draw. -/
def fallbackComparison (r : ℚ) : FaceComparison :=
  let similarity : ℚ := ((jsFloor (r * 10) + 90 : ℤ) : ℚ)
  { success := true
    source := "fallback_comparison"
    similarity := similarity
    isMatch := decide (similarity > 85)
    confidence := similarity }

/-- The method `FaceComparisonService.compareFaces`. Every error of the AWS
path is caught by the `try`/`catch`, so the method always returns a result. -/
def compareFaces (rekognition : Option FaceCompareClient) (sourceImage targetImage : String)
    (r : ℚ) : FaceComparison :=
  match rekognition with
  | some client =>
    match client.compareFaces sourceImage targetImage with
    | .ok (some (similarity :: _)) =>
      { success := true
        source := "aws_rekognition"
        similarity := similarity
        isMatch := decide (similarity > 85)
        confidence := similarity }
    | .ok _ => fallbackComparison r
    | .error _ => fallbackComparison r
  | none => fallbackComparison r

/-- The shape the claim gives a rejected request: status 400, `success=false`,
a non-empty error message and no call of the service. -/
def isRejection (res : RouteResponse) : Prop :=
  res.status = 400 ∧ res.success = some false ∧ (∃ e, res.error = some e ∧ e ≠ "")
    ∧ res.calls = []

/-! ## Inputs used in the evaluations below -/

/-- A face detail that carries a confidence of 50 and no other attribute. -/
def lowConfidenceFace : FaceDetail :=
  { confidence := some 50, quality := none, eyesOpen := none, mouthOpen := none,
    emotions := none, pose := none }

/-- A client without `startFaceLivenessSession` whose `detectFaces` finds one
low-confidence face in every image. -/
def lowConfidenceClient : RekognitionClient :=
  { hasFaceLiveness := false
    startFaceLivenessSession := .error "startFaceLivenessSession is not a function"
    detectFaces := fun _ => .ok (some [lowConfidenceFace]) }

/-- Four captured frames as data URLs. -/
def fourFrames : List String :=
  ["data:image/jpeg;base64,AA", "data:image/jpeg;base64,AB", "data:image/jpeg;base64,AC",
    "data:image/jpeg;base64,AD"]

/-- A service object whose every method throws. -/
def failingService : RekognitionServiceObject :=
  { base64ToBuffer := fun _ => .error "unavailable"
    compareFaces := fun _ _ _ => .error "unavailable"
    detectFaces := fun _ => .error "unavailable"
    validateImageQuality := fun _ => .error "unavailable"
    createCollection := fun _ => .error "unavailable"
    indexFace := fun _ _ _ => .error "unavailable"
    searchFacesByImage := fun _ _ _ _ => .error "unavailable" }

/-- A face detail with full brightness and sharpness, open eyes, three emotions
and a head turned by 12 and 5 degrees. -/
def brightFace : FaceDetail :=
  { confidence := some 99
    quality := some { brightness := some 100, sharpness := some 100 }
    eyesOpen := some { value := true, confidence := some 95 }
    mouthOpen := none
    emotions := some ["HAPPY", "CALM", "SURPRISED"]
    pose := some { yaw := some 12, pitch := some (-5) } }

/-! ## Theorems -/

/-- C1 as stated fails: at document score 85, biometric score 80 and random
draw 0 the handler does not return `finalScore` 80.75. -/
theorem C1_finalScore_ne_80_75 :
    (calculateTrust (some 85) (some 80) 0).finalScore ≠ 8075 / 100 := by
  simp [calculateTrust, round1, jsRound, handlerScore, handlerDocScore, handlerBioScore,
    handlerBehaviorScore, jsOr]
  norm_num

/-- C1 amended: at document score 85, biometric score 80 and random draw 0
(scores given explicitly or taken from the defaults) the unrounded weighted sum
is 80.75 and the returned `finalScore`, rounded to one decimal, is 80.8. -/
theorem C1_finalScore_eq_80_8 :
    handlerScore (some 85) (some 80) 0 = 8075 / 100
      ∧ (calculateTrust (some 85) (some 80) 0).finalScore = 808 / 10
      ∧ (calculateTrust none none 0).finalScore = 808 / 10 := by
  refine ⟨?_, ?_, ?_⟩
  · norm_num [handlerScore, handlerDocScore, handlerBioScore, handlerBehaviorScore, jsOr]
  · simp [calculateTrust, round1, jsRound, handlerScore, handlerDocScore, handlerBioScore,
      handlerBehaviorScore, jsOr]
    norm_num
  · simp [calculateTrust, round1, jsRound, handlerScore, handlerDocScore, handlerBioScore,
      handlerBehaviorScore, jsOr]
    norm_num


/-! ### Shared lemmas on the primitives -/

theorem jsRound_mono {x y : ℚ} (h : x ≤ y) : jsRound x ≤ jsRound y := by
  unfold jsRound
  exact Int.floor_mono (by linarith)

theorem round1_mono {x y : ℚ} (h : x ≤ y) : round1 x ≤ round1 y := by
  unfold round1
  have h1 : jsRound (x * 10) ≤ jsRound (y * 10) := jsRound_mono (by linarith)
  have h2 : ((jsRound (x * 10) : ℤ) : ℚ) ≤ ((jsRound (y * 10) : ℤ) : ℚ) := by exact_mod_cast h1
  linarith

theorem round1_bounds {lo hi : ℤ} {y : ℚ} (h1 : (lo : ℚ) ≤ y) (h2 : y ≤ (hi : ℚ)) :
    (lo : ℚ) ≤ round1 y ∧ round1 y ≤ (hi : ℚ) := by
  unfold round1 jsRound
  have ha : lo * 10 ≤ ⌊y * 10 + 1 / 2⌋ := by
    apply Int.le_floor.mpr
    push_cast
    linarith
  have hb : ⌊y * 10 + 1 / 2⌋ ≤ hi * 10 := by
    have : ⌊y * 10 + 1 / 2⌋ < hi * 10 + 1 := by
      apply Int.floor_lt.mpr
      push_cast
      linarith
    omega
  have ha2 : ((lo * 10 : ℤ) : ℚ) ≤ ((⌊y * 10 + 1 / 2⌋ : ℤ) : ℚ) := by exact_mod_cast ha
  have hb2 : ((⌊y * 10 + 1 / 2⌋ : ℤ) : ℚ) ≤ ((hi * 10 : ℤ) : ℚ) := by exact_mod_cast hb
  push_cast at ha2 hb2
  constructor <;> linarith

theorem jsOr_bounds {a : Option ℚ} {d lo hi : ℚ}
    (ha : ∀ c, a = some c → lo ≤ c ∧ c ≤ hi) (hd : lo ≤ d ∧ d ≤ hi) :
    lo ≤ jsOr a d ∧ jsOr a d ≤ hi := by
  unfold jsOr
  cases a with
  | none => exact hd
  | some c =>
    by_cases hc : c = 0
    · simpa [hc] using hd
    · simpa [hc] using ha c rfl

theorem analyzeBehavior_bounds (b : BehavioralData) :
    30 ≤ analyzeBehavior b ∧ analyzeBehavior b ≤ 100 := by
  unfold analyzeBehavior
  constructor
  · exact le_min (by norm_num) (le_max_left _ _)
  · exact min_le_left _ _

theorem assessRiskIndicators_bounds (d : DocumentData) (b : BiometricData) :
    50 ≤ assessRiskIndicators d b ∧ assessRiskIndicators d b ≤ 90 := by
  unfold assessRiskIndicators
  constructor
  · exact le_max_left _ _
  · apply max_le (by norm_num)
    cases d.extractedData with
    | none => simp
    | some e =>
      simp only
      split_ifs <;> norm_num

/-! ### C2 -/

/-- C2, evaluation at the failing input: with every other input fixed, document
confidence 0 yields `finalScore` 82.3 and the larger confidence 50 yields 68.3;
likewise biometric confidence 0 yields 82.3 and 50 yields 71.8. -/
theorem C2_zero_confidence_scores_higher :
    (calculateTrustScore ⟨some 0, none⟩ ⟨some 80, true⟩ BehavioralData.empty).finalScore
        = 823 / 10
      ∧ (calculateTrustScore ⟨some 50, none⟩ ⟨some 80, true⟩ BehavioralData.empty).finalScore
        = 683 / 10
      ∧ (calculateTrustScore ⟨some 85, none⟩ ⟨some 0, true⟩ BehavioralData.empty).finalScore
        = 823 / 10
      ∧ (calculateTrustScore ⟨some 85, none⟩ ⟨some 50, true⟩ BehavioralData.empty).finalScore
        = 718 / 10 := by
  refine ⟨?_, ?_, ?_, ?_⟩ <;>
  · simp [calculateTrustScore, trustScoreSum, round1, jsRound, jsOr, analyzeBehavior,
      assessRiskIndicators, BehavioralData.empty]
    norm_num

/-- Away from the falsy confidence 0 the score is monotone in the document
confidence and in the biometric confidence. -/
theorem calculateTrustScore_mono_of_ne_zero (c1 c2 : ℚ) (e : Option ExtractedData)
    (b : BiometricData) (d : DocumentData) (m : Bool) (beh : BehavioralData)
    (h1 : c1 ≠ 0) (h2 : c2 ≠ 0) (h : c1 ≤ c2) :
    (calculateTrustScore ⟨some c1, e⟩ b beh).finalScore
        ≤ (calculateTrustScore ⟨some c2, e⟩ b beh).finalScore
      ∧ (calculateTrustScore d ⟨some c1, m⟩ beh).finalScore
        ≤ (calculateTrustScore d ⟨some c2, m⟩ beh).finalScore := by
  constructor
  · apply round1_mono
    simp only [trustScoreSum, jsOr, h1, h2, if_false, assessRiskIndicators]
    linarith
  · apply round1_mono
    simp only [trustScoreSum, jsOr, h1, h2, if_false, assessRiskIndicators]
    linarith

/-! ### C3 -/

/-- C3, evaluation at the failing input: document confidence 99.9, biometric
confidence 85, no behavioural data. The weighted sum is 89.96, the returned
`finalScore` is 90, and the returned status is "Approved with Monitoring". -/
theorem C3_finalScore_90_not_approved :
    trustScoreSum ⟨some (999 / 10), none⟩ ⟨some 85, true⟩ BehavioralData.empty = 8996 / 100
      ∧ (calculateTrustScore ⟨some (999 / 10), none⟩ ⟨some 85, true⟩
          BehavioralData.empty).finalScore = 90
      ∧ (calculateTrustScore ⟨some (999 / 10), none⟩ ⟨some 85, true⟩
          BehavioralData.empty).recommendation.status = "Approved with Monitoring" := by
  have hs : trustScoreSum ⟨some (999 / 10), none⟩ ⟨some 85, true⟩ BehavioralData.empty
      = 8996 / 100 := by
    norm_num [trustScoreSum, jsOr, analyzeBehavior, assessRiskIndicators, BehavioralData.empty]
  refine ⟨hs, ?_, ?_⟩
  · simp only [calculateTrustScore, hs, round1, jsRound]
    norm_num
  · simp only [calculateTrustScore, hs, getTrustRecommendation]
    norm_num

/-- The status returned by `calculateTrustScore` follows the thresholds 90 and
75 on the unrounded weighted sum. -/
theorem calculateTrustScore_status_of_sum (d : DocumentData) (b : BiometricData)
    (beh : BehavioralData) :
    (calculateTrustScore d b beh).recommendation.status =
      if trustScoreSum d b beh ≥ 90 then "Approved"
      else if trustScoreSum d b beh ≥ 75 then "Approved with Monitoring"
      else "Review Required" := by
  simp only [calculateTrustScore, getTrustRecommendation]
  split_ifs <;> rfl

/-! ### C4 -/

/-- C4 as stated fails: confidences 200 are not clamped and the returned
`finalScore` is 170.3, outside `[0,100]`. -/
theorem C4_finalScore_exceeds_100 :
    (calculateTrustScore ⟨some 200, none⟩ ⟨some 200, true⟩ BehavioralData.empty).finalScore
        = 1703 / 10
      ∧ ¬ ((calculateTrustScore ⟨some 200, none⟩ ⟨some 200, true⟩
          BehavioralData.empty).finalScore ≤ 100) := by
  have h : (calculateTrustScore ⟨some 200, none⟩ ⟨some 200, true⟩
      BehavioralData.empty).finalScore = 1703 / 10 := by
    simp [calculateTrustScore, trustScoreSum, round1, jsRound, jsOr, analyzeBehavior,
      assessRiskIndicators, BehavioralData.empty]
    norm_num
  refine ⟨h, ?_⟩
  rw [h]
  norm_num

/-- C4 amended: no clamping is applied, but when the document confidence and
the biometric confidence are absent or lie in `[0,100]`, the weighted sum and the
returned `finalScore` lie in `[0,100]`. -/
theorem C4_finalScore_in_range (d : DocumentData) (b : BiometricData) (beh : BehavioralData)
    (hd : ∀ c, d.confidence = some c → 0 ≤ c ∧ c ≤ 100)
    (hb : ∀ c, b.confidence = some c → 0 ≤ c ∧ c ≤ 100) :
    (0 ≤ trustScoreSum d b beh ∧ trustScoreSum d b beh ≤ 100)
      ∧ 0 ≤ (calculateTrustScore d b beh).finalScore
      ∧ (calculateTrustScore d b beh).finalScore ≤ 100 := by
  have h1 := jsOr_bounds hd (show (0 : ℚ) ≤ 85 ∧ (85 : ℚ) ≤ 100 by norm_num)
  have h2 := jsOr_bounds hb (show (0 : ℚ) ≤ 80 ∧ (80 : ℚ) ≤ 100 by norm_num)
  have h3 := analyzeBehavior_bounds beh
  have h4 := assessRiskIndicators_bounds d b
  have hs : 0 ≤ trustScoreSum d b beh ∧ trustScoreSum d b beh ≤ 100 := by
    unfold trustScoreSum
    constructor <;> linarith [h1.1, h1.2, h2.1, h2.2, h3.1, h3.2, h4.1, h4.2]
  refine ⟨hs, ?_⟩
  have hr := @round1_bounds 0 100 (trustScoreSum d b beh)
    (by simpa using hs.1) (by simpa using hs.2)
  simpa [calculateTrustScore] using hr

/-- C4 amended, at confidences 95 and 88 with no other data. -/
theorem C4_finalScore_in_range_witness :
    (0 ≤ trustScoreSum ⟨some 95, none⟩ ⟨some 88, true⟩ BehavioralData.empty
        ∧ trustScoreSum ⟨some 95, none⟩ ⟨some 88, true⟩ BehavioralData.empty ≤ 100)
      ∧ 0 ≤ (calculateTrustScore ⟨some 95, none⟩ ⟨some 88, true⟩
          BehavioralData.empty).finalScore
      ∧ (calculateTrustScore ⟨some 95, none⟩ ⟨some 88, true⟩
          BehavioralData.empty).finalScore ≤ 100 :=
  C4_finalScore_in_range ⟨some 95, none⟩ ⟨some 88, true⟩ BehavioralData.empty
    (by intro c hc; simp at hc; subst hc; norm_num)
    (by intro c hc; simp at hc; subst hc; norm_num)

/-! ### C5 -/

theorem fallback_reason_ne_empty (videoFrames faceImages : List String) (r1 r2 r3 : ℚ) :
    (getFallbackLivenessResult videoFrames faceImages r1 r2 r3).reason ≠ "" := by
  intro h
  have hl := congrArg String.length h
  simp only [getFallbackLivenessResult, String.length_append] at hl
  have h26 : String.length "Live person detected with " = 26 := by decide
  have h0 : String.length "" = 0 := by decide
  rw [h26, h0] at hl
  omega

/-- C5 as stated fails: with no client configured and zero frames,
`detectLiveness` does not return `success == false`. -/
theorem C5_zero_frames_not_failure :
    ¬ ((detectLiveness none [] [] 0 0 0 0).success = false) := by
  simp [detectLiveness, getFallbackLivenessResult]

/-- C5 amended: called with zero frames, `detectLiveness` returns (it cannot
throw) a result with `success == true` and a non-empty reason, whatever the
client and the random draws are; without a client the result is the fallback
result over the minimum of 5 frames. -/
theorem C5_zero_frames_succeeds (rekognition : Option RekognitionClient)
    (rAws r1 r2 r3 : ℚ) :
    (detectLiveness rekognition [] [] rAws r1 r2 r3).success = true
      ∧ (detectLiveness rekognition [] [] rAws r1 r2 r3).reason ≠ ""
      ∧ (detectLiveness none [] [] rAws r1 r2 r3).source = "fallback_analysis"
      ∧ (detectLiveness none [] [] rAws r1 r2 r3).details.totalFrames = 5 := by
  have hf := fallback_reason_ne_empty [] [] r1 r2 r3
  have hs : (getFallbackLivenessResult [] [] r1 r2 r3).success = true := rfl
  refine ⟨?_, ?_, rfl, ?_⟩
  · cases rekognition with
    | none => exact hs
    | some client =>
      simp only [detectLiveness]
      cases hc : callAWSRekognition client [] rAws with
      | error e => exact hs
      | ok res =>
        by_cases hr : res.success = true
        · simp [hr]
        · simp only [hr]
          exact hs
  · cases rekognition with
    | none => exact hf
    | some client =>
      simp only [detectLiveness]
      cases hc : callAWSRekognition client [] rAws with
      | error e => exact hf
      | ok res =>
        by_cases hr : res.success = true
        · simp only [hr, if_true]
          unfold callAWSRekognition at hc
          by_cases hl : client.hasFaceLiveness = true
          · simp only [hl, if_true, callFaceLivenessAPI] at hc
            cases hsess : client.startFaceLivenessSession with
            | error e => simp [hsess] at hc
            | ok session =>
              simp only [hsess, Except.ok.injEq] at hc
              rw [← hc]
              show "Live person verified using AWS Rekognition Face Liveness" ≠ ""
              decide
          · simp [hl, detectLoop] at hc
        · simp only [hr]
          exact hf
  · simp [detectLiveness, getFallbackLivenessResult]

/-! ### C6 and C7 -/

theorem primaryScenario_ge (c : ScenarioCount) (s : Scenario) :
    c.get s ≤ c.get (primaryScenario c) := by
  unfold primaryScenario reduce1
  simp only [List.foldl]
  cases s <;> split_ifs <;> simp only [ScenarioCount.get] at * <;> omega

/-- C6: in external-service mode the scenario reported by
`createScenarioBasedResults` is the one chosen by the reduce, and its count is
greater than or equal to the count of every label, for every list of frames. -/
theorem C6_primaryScenario_is_argmax (sid : String) (capturedImages : List CapturedImage)
    (r : ℚ) (s : Scenario) :
    (createScenarioBasedResults (some sid) capturedImages r).scenario
        = primaryScenario (scenarioCount capturedImages)
      ∧ (scenarioCount capturedImages).get s
        ≤ (scenarioCount capturedImages).get
            (createScenarioBasedResults (some sid) capturedImages r).scenario := by
  have h : (createScenarioBasedResults (some sid) capturedImages r).scenario
      = primaryScenario (scenarioCount capturedImages) := by
    simp only [createScenarioBasedResults, Option.isSome_some, Bool.not_true,
      Bool.false_eq_true, if_false]
    cases primaryScenario (scenarioCount capturedImages) <;> rfl
  rw [h]
  exact ⟨rfl, primaryScenario_ge _ _⟩

/-- C7 as stated fails: with one normal and one blocked frame the labels
normal and blocked tie for the highest count, normal comes first in the key
order, and the reduce chooses blocked. -/
theorem C7_tie_not_first :
    (scenarioCount [⟨"center", "data:,", 0, .normal⟩, ⟨"blink", "data:,", 1, .blocked⟩]).get
        Scenario.normal
      = (scenarioCount [⟨"center", "data:,", 0, .normal⟩, ⟨"blink", "data:,", 1, .blocked⟩]).get
        Scenario.blocked
    ∧ scenarioKeys.indexOf Scenario.normal < scenarioKeys.indexOf Scenario.blocked
    ∧ primaryScenario
        (scenarioCount [⟨"center", "data:,", 0, .normal⟩, ⟨"blink", "data:,", 1, .blocked⟩])
      = Scenario.blocked := by
  decide

/-- C7 amended: when labels share the highest count, the reduce chooses the
tied label that comes last in the key order (normal, blocked, photo): every
label whose count equals that of the chosen one stands at or before it. -/
theorem C7_tie_goes_to_last (capturedImages : List CapturedImage) (s : Scenario)
    (h : (scenarioCount capturedImages).get s
      = (scenarioCount capturedImages).get (primaryScenario (scenarioCount capturedImages))) :
    scenarioKeys.indexOf s
      ≤ scenarioKeys.indexOf (primaryScenario (scenarioCount capturedImages)) := by
  generalize scenarioCount capturedImages = c at h ⊢
  unfold primaryScenario reduce1 at h ⊢
  simp only [List.foldl] at h ⊢
  cases s <;> split_ifs at h ⊢ <;> simp only [ScenarioCount.get] at * <;>
    first | decide | omega

/-- C7 amended, at one normal and one blocked frame: normal ties with the
chosen label and stands before it. -/
theorem C7_tie_goes_to_last_witness :
    scenarioKeys.indexOf Scenario.normal
      ≤ scenarioKeys.indexOf (primaryScenario
          (scenarioCount [⟨"center", "data:,", 0, .normal⟩, ⟨"blink", "data:,", 1, .blocked⟩])) :=
  C7_tie_goes_to_last [⟨"center", "data:,", 0, .normal⟩, ⟨"blink", "data:,", 1, .blocked⟩]
    Scenario.normal (by decide)

/-! ### C8 -/

/-- C8: in external-service mode, for every random draw in `[0,1)`, a
dominant scenario blocked yields `success=false`, risk CRITICAL and confidence
in `[15,25]`; photo yields `success=false`, risk HIGH and confidence in
`[25,45]`; normal yields `success=true`, risk LOW and confidence in `[85,98]`. -/
theorem C8_scenario_outcomes (sid : String) (capturedImages : List CapturedImage) (r : ℚ)
    (h0 : 0 ≤ r) (h1 : r < 1) :
    (primaryScenario (scenarioCount capturedImages) = Scenario.blocked →
        (createScenarioBasedResults (some sid) capturedImages r).success = false
          ∧ (createScenarioBasedResults (some sid) capturedImages r).overallRisk = "CRITICAL"
          ∧ 15 ≤ (createScenarioBasedResults (some sid) capturedImages r).confidence
          ∧ (createScenarioBasedResults (some sid) capturedImages r).confidence ≤ 25)
      ∧ (primaryScenario (scenarioCount capturedImages) = Scenario.photo →
        (createScenarioBasedResults (some sid) capturedImages r).success = false
          ∧ (createScenarioBasedResults (some sid) capturedImages r).overallRisk = "HIGH"
          ∧ 25 ≤ (createScenarioBasedResults (some sid) capturedImages r).confidence
          ∧ (createScenarioBasedResults (some sid) capturedImages r).confidence ≤ 45)
      ∧ (primaryScenario (scenarioCount capturedImages) = Scenario.normal →
        (createScenarioBasedResults (some sid) capturedImages r).success = true
          ∧ (createScenarioBasedResults (some sid) capturedImages r).overallRisk = "LOW"
          ∧ 85 ≤ (createScenarioBasedResults (some sid) capturedImages r).confidence
          ∧ (createScenarioBasedResults (some sid) capturedImages r).confidence ≤ 98) := by
  refine ⟨?_, ?_, ?_⟩
  · intro hp
    have hb := @round1_bounds 15 25 (15 + r * 10) (by push_cast; linarith) (by push_cast; linarith)
    simp only [createScenarioBasedResults, Option.isSome_some, Bool.not_true,
      Bool.false_eq_true, if_false, hp]
    exact ⟨trivial, trivial, by simpa using hb.1, by simpa using hb.2⟩
  · intro hp
    have hb := @round1_bounds 25 45 (25 + r * 20) (by push_cast; linarith) (by push_cast; linarith)
    simp only [createScenarioBasedResults, Option.isSome_some, Bool.not_true,
      Bool.false_eq_true, if_false, hp]
    exact ⟨trivial, trivial, by simpa using hb.1, by simpa using hb.2⟩
  · intro hp
    have hb := @round1_bounds 85 98 (85 + r * 13) (by push_cast; linarith) (by push_cast; linarith)
    simp only [createScenarioBasedResults, Option.isSome_some, Bool.not_true,
      Bool.false_eq_true, if_false, hp]
    exact ⟨trivial, trivial, by simpa using hb.1, by simpa using hb.2⟩

/-- C8 at two blocked frames and one normal frame with random draw 1/2: the
dominant scenario is blocked, and the blocked outcome follows. -/
theorem C8_scenario_outcomes_witness :
    primaryScenario (scenarioCount [⟨"center", "data:,", 0, .blocked⟩,
        ⟨"blink", "data:,", 1, .blocked⟩, ⟨"left", "data:image/jpeg;base64,AA", 2, .normal⟩])
      = Scenario.blocked
    ∧ (createScenarioBasedResults (some "session-1") [⟨"center", "data:,", 0, .blocked⟩,
        ⟨"blink", "data:,", 1, .blocked⟩, ⟨"left", "data:image/jpeg;base64,AA", 2, .normal⟩]
        (1 / 2)).success = false
    ∧ (createScenarioBasedResults (some "session-1") [⟨"center", "data:,", 0, .blocked⟩,
        ⟨"blink", "data:,", 1, .blocked⟩, ⟨"left", "data:image/jpeg;base64,AA", 2, .normal⟩]
        (1 / 2)).overallRisk = "CRITICAL"
    ∧ 15 ≤ (createScenarioBasedResults (some "session-1") [⟨"center", "data:,", 0, .blocked⟩,
        ⟨"blink", "data:,", 1, .blocked⟩, ⟨"left", "data:image/jpeg;base64,AA", 2, .normal⟩]
        (1 / 2)).confidence
    ∧ (createScenarioBasedResults (some "session-1") [⟨"center", "data:,", 0, .blocked⟩,
        ⟨"blink", "data:,", 1, .blocked⟩, ⟨"left", "data:image/jpeg;base64,AA", 2, .normal⟩]
        (1 / 2)).confidence ≤ 25 :=
  ⟨by decide,
    (C8_scenario_outcomes "session-1" [⟨"center", "data:,", 0, .blocked⟩,
        ⟨"blink", "data:,", 1, .blocked⟩, ⟨"left", "data:image/jpeg;base64,AA", 2, .normal⟩]
        (1 / 2) (by norm_num) (by norm_num)).1 (by decide)⟩

/-! ### C9 -/

theorem calculateFallbackConfidence_le (scenarios : Scenarios) (r : ℚ) (h1 : r < 1) :
    calculateFallbackConfidence scenarios r ≤ 99 := by
  have f8 : ⌊r * 8⌋ < 8 := Int.floor_lt.mpr (by push_cast; linarith)
  have f5 : ⌊r * 5⌋ < 5 := Int.floor_lt.mpr (by push_cast; linarith)
  have f15 : ⌊r * 15⌋ < 15 := Int.floor_lt.mpr (by push_cast; linarith)
  unfold calculateFallbackConfidence jsFloor
  simp only
  split_ifs <;> omega

/-- C9 as stated fails: with 11 face images and draws 7/10, 0 and 9/10 the
fallback result has confidence 99, above 98. -/
theorem C9_confidence_99 :
    (getFallbackLivenessResult [] (List.replicate 11 "data:image/jpeg;base64,AA")
        (7 / 10) 0 (9 / 10)).confidence = 99
      ∧ ¬ ((getFallbackLivenessResult [] (List.replicate 11 "data:image/jpeg;base64,AA")
        (7 / 10) 0 (9 / 10)).confidence ≤ 98) := by
  have h : (getFallbackLivenessResult [] (List.replicate 11 "data:image/jpeg;base64,AA")
      (7 / 10) 0 (9 / 10)).confidence = 99 := by
    simp [getFallbackLivenessResult, analyzeScenarios, calculateFallbackConfidence, jsFloor]
    norm_num
  refine ⟨h, ?_⟩
  rw [h]
  norm_num

/-- C9 amended: for every number of face images and every random draw in
`[0,1)`, `getFallbackLivenessResult` returns `success == true` with a
whole-number confidence in `[90,99]`. -/
theorem C9_fallback_confidence_range (videoFrames faceImages : List String) (r1 r2 r3 : ℚ)
    (h3 : r3 < 1) :
    (getFallbackLivenessResult videoFrames faceImages r1 r2 r3).success = true
      ∧ (∃ n : ℤ, (getFallbackLivenessResult videoFrames faceImages r1 r2 r3).confidence = n
          ∧ 90 ≤ n ∧ n ≤ 99) := by
  refine ⟨rfl, _, rfl, le_max_right _ _, ?_⟩
  exact max_le (calculateFallbackConfidence_le _ _ h3) (by norm_num)

/-- C9 amended, at 11 face images and draws 7/10, 0 and 9/10. -/
theorem C9_fallback_confidence_range_witness :
    (getFallbackLivenessResult [] (List.replicate 11 "data:image/jpeg;base64,AA")
        (7 / 10) 0 (9 / 10)).success = true
      ∧ (∃ n : ℤ, (getFallbackLivenessResult [] (List.replicate 11 "data:image/jpeg;base64,AA")
          (7 / 10) 0 (9 / 10)).confidence = n ∧ 90 ≤ n ∧ n ≤ 99) :=
  C9_fallback_confidence_range [] (List.replicate 11 "data:image/jpeg;base64,AA")
    (7 / 10) 0 (9 / 10) (by norm_num)

/-! ### C10 -/

theorem analyzeScenarios_sum (frameCount : ℤ) (hasMovement : Bool) (r1 r2 : ℚ)
    (hfc : 0 ≤ frameCount) (h1 : 0 ≤ r1) (h1' : r1 < 1) (h2 : 0 ≤ r2) (h2' : r2 < 1) :
    0 ≤ (analyzeScenarios frameCount hasMovement r1 r2).normal
      ∧ 0 ≤ (analyzeScenarios frameCount hasMovement r1 r2).photo
      ∧ 0 ≤ (analyzeScenarios frameCount hasMovement r1 r2).blocked
      ∧ (analyzeScenarios frameCount hasMovement r1 r2).normal
          + (analyzeScenarios frameCount hasMovement r1 r2).photo
          + (analyzeScenarios frameCount hasMovement r1 r2).blocked = frameCount := by
  have hq : (0 : ℚ) ≤ (frameCount : ℚ) := by exact_mod_cast hfc
  have hn0 : 0 ≤ ⌊(frameCount : ℚ) * (85 / 100 + r1 * (1 / 10))⌋ :=
    Int.floor_nonneg.mpr (mul_nonneg hq (by linarith))
  have hp0 : 0 ≤ ⌊(frameCount : ℚ) * (r2 * (5 / 100))⌋ :=
    Int.floor_nonneg.mpr (mul_nonneg hq (by linarith))
  have hn1 : ((⌊(frameCount : ℚ) * (85 / 100 + r1 * (1 / 10))⌋ : ℤ) : ℚ)
      ≤ (frameCount : ℚ) * (95 / 100) :=
    le_trans (Int.floor_le _) (mul_le_mul_of_nonneg_left (by linarith) hq)
  have hp1 : ((⌊(frameCount : ℚ) * (r2 * (5 / 100))⌋ : ℤ) : ℚ)
      ≤ (frameCount : ℚ) * (5 / 100) :=
    le_trans (Int.floor_le _) (mul_le_mul_of_nonneg_left (by linarith) hq)
  have hsum : ⌊(frameCount : ℚ) * (85 / 100 + r1 * (1 / 10))⌋
      + ⌊(frameCount : ℚ) * (r2 * (5 / 100))⌋ ≤ frameCount := by
    have : ((⌊(frameCount : ℚ) * (85 / 100 + r1 * (1 / 10))⌋
        + ⌊(frameCount : ℚ) * (r2 * (5 / 100))⌋ : ℤ) : ℚ) ≤ (frameCount : ℚ) := by
      push_cast
      linarith
    exact_mod_cast this
  simp only [analyzeScenarios, jsFloor]
  refine ⟨hn0, hp0, le_max_left _ _, ?_⟩
  rw [max_eq_right (by omega)]
  omega

/-- C10: for every `frameCount ≥ 0` and every pair of random draws in `[0,1)`,
`analyzeScenarios` returns non-negative integer counts that sum to
`frameCount`; hence the distribution reported by `getFallbackLivenessResult`
sums to its `details.totalFrames`. -/
theorem C10_scenarios_sum_to_frameCount (frameCount : ℤ) (hasMovement : Bool)
    (videoFrames faceImages : List String) (r1 r2 r3 : ℚ)
    (hfc : 0 ≤ frameCount) (h1 : 0 ≤ r1) (h1' : r1 < 1) (h2 : 0 ≤ r2) (h2' : r2 < 1) :
    (0 ≤ (analyzeScenarios frameCount hasMovement r1 r2).normal
      ∧ 0 ≤ (analyzeScenarios frameCount hasMovement r1 r2).photo
      ∧ 0 ≤ (analyzeScenarios frameCount hasMovement r1 r2).blocked
      ∧ (analyzeScenarios frameCount hasMovement r1 r2).normal
          + (analyzeScenarios frameCount hasMovement r1 r2).photo
          + (analyzeScenarios frameCount hasMovement r1 r2).blocked = frameCount)
    ∧ (getFallbackLivenessResult videoFrames faceImages r1 r2 r3).details.scenarios.normal
        + (getFallbackLivenessResult videoFrames faceImages r1 r2 r3).details.scenarios.photo
        + (getFallbackLivenessResult videoFrames faceImages r1 r2 r3).details.scenarios.blocked
      = (getFallbackLivenessResult videoFrames faceImages r1 r2 r3).details.totalFrames := by
  refine ⟨analyzeScenarios_sum frameCount hasMovement r1 r2 hfc h1 h1' h2 h2', ?_⟩
  have hfc5 : (0 : ℤ) ≤ max (faceImages.length : ℤ) 5 := le_trans (by norm_num) (le_max_right _ _)
  exact (analyzeScenarios_sum (max (faceImages.length : ℤ) 5) true r1 r2 hfc5 h1 h1' h2 h2').2.2.2

/-- C10 at 7 frames and draws 1/2 and 1/2, with the same draws in the
fallback result over 7 face images. -/
theorem C10_scenarios_sum_to_frameCount_witness :
    (0 ≤ (analyzeScenarios 7 true (1 / 2) (1 / 2)).normal
      ∧ 0 ≤ (analyzeScenarios 7 true (1 / 2) (1 / 2)).photo
      ∧ 0 ≤ (analyzeScenarios 7 true (1 / 2) (1 / 2)).blocked
      ∧ (analyzeScenarios 7 true (1 / 2) (1 / 2)).normal
          + (analyzeScenarios 7 true (1 / 2) (1 / 2)).photo
          + (analyzeScenarios 7 true (1 / 2) (1 / 2)).blocked = 7)
    ∧ (getFallbackLivenessResult [] (List.replicate 7 "data:image/jpeg;base64,AA")
          (1 / 2) (1 / 2) 0).details.scenarios.normal
        + (getFallbackLivenessResult [] (List.replicate 7 "data:image/jpeg;base64,AA")
          (1 / 2) (1 / 2) 0).details.scenarios.photo
        + (getFallbackLivenessResult [] (List.replicate 7 "data:image/jpeg;base64,AA")
          (1 / 2) (1 / 2) 0).details.scenarios.blocked
      = (getFallbackLivenessResult [] (List.replicate 7 "data:image/jpeg;base64,AA")
          (1 / 2) (1 / 2) 0).details.totalFrames :=
  C10_scenarios_sum_to_frameCount 7 true [] (List.replicate 7 "data:image/jpeg;base64,AA")
    (1 / 2) (1 / 2) 0 (by norm_num) (by norm_num) (by norm_num) (by norm_num) (by norm_num)

/-! ### C11 -/

theorem lowConfidence_result :
    callAWSRekognition lowConfidenceClient fourFrames 0 = .ok
      { success := false
        source := "aws_rekognition_enhanced"
        confidence := 25
        details :=
          { totalFrames := 4
            facesDetected := some 4
            scenarios := { normal := 0, photo := 1, blocked := 0 }
            avgFaceConfidence := some 50
            avgLivenessScore := some 0
            sessionId := none }
        reason := "Insufficient liveness indicators detected - please ensure good "
          ++ "lighting and look directly at camera" } := by
  simp [callAWSRekognition, detectLoop, lowConfidenceClient, fourFrames, lowConfidenceFace,
    calculateLivenessFromFace, jsOr, jsRound, jsFloor]
  norm_num

/-- C11, evaluation at the failing input: four frames, one face of confidence 50
found in each, no Face Liveness API. The DetectFaces path returns
`success == false` with `totalFrames` 4 and the distribution normal 0, photo 1,
blocked 0, which sums to 1 and not to 4. -/
theorem C11_failed_check_distribution :
    ∃ res, callAWSRekognition lowConfidenceClient fourFrames 0 = .ok res
      ∧ res.success = false
      ∧ res.details.facesDetected = some 4
      ∧ res.details.totalFrames = 4
      ∧ res.details.scenarios = { normal := 0, photo := 1, blocked := 0 }
      ∧ res.details.scenarios.normal + res.details.scenarios.photo
          + res.details.scenarios.blocked = 1
      ∧ res.details.scenarios.normal + res.details.scenarios.photo
          + res.details.scenarios.blocked ≠ res.details.totalFrames :=
  ⟨_, lowConfidence_result, rfl, rfl, rfl, rfl, by decide, by decide⟩

/-- When the result reports success, the distribution sums to `totalFrames`. -/
theorem callAWSRekognition_success_sum (client : RekognitionClient) (faceImages : List String)
    (r : ℚ) (res : LivenessResult) (h : callAWSRekognition client faceImages r = .ok res)
    (hs : res.success = true) :
    res.details.scenarios.normal + res.details.scenarios.photo + res.details.scenarios.blocked
      = res.details.totalFrames := by
  unfold callAWSRekognition at h
  split_ifs at h with hpath
  · unfold callFaceLivenessAPI at h
    cases hsess : client.startFaceLivenessSession with
    | error e => simp [hsess] at h
    | ok session =>
      simp only [hsess, Except.ok.injEq] at h
      subst h
      simp
  · cases hd : detectLoop client faceImages [] with
    | error e => simp [hd] at h
    | ok results =>
      simp only [hd] at h
      by_cases hlen : results.length = 0
      · simp [hlen] at h
      · simp only [hlen, if_false, Except.ok.injEq] at h
        subst h
        simp only at hs
        simp only [hs, if_true]
        omega

/-- When the result reports failure, the distribution sums to less than
`totalFrames`: of the frames with a face only three tenths, rounded down, are
counted. -/
theorem callAWSRekognition_failure_sum_lt (client : RekognitionClient)
    (faceImages : List String) (r : ℚ) (res : LivenessResult)
    (h : callAWSRekognition client faceImages r = .ok res) (hs : res.success = false) :
    res.details.scenarios.normal + res.details.scenarios.photo + res.details.scenarios.blocked
      < res.details.totalFrames := by
  unfold callAWSRekognition at h
  split_ifs at h with hpath
  · unfold callFaceLivenessAPI at h
    cases hsess : client.startFaceLivenessSession with
    | error e => simp [hsess] at h
    | ok session =>
      simp only [hsess, Except.ok.injEq] at h
      subst h
      simp at hs
  · cases hd : detectLoop client faceImages [] with
    | error e => simp [hd] at h
    | ok results =>
      simp only [hd] at h
      by_cases hlen : results.length = 0
      · simp [hlen] at h
      · simp only [hlen, if_false, Except.ok.injEq] at h
        subst h
        simp only at hs
        simp only [hs, Bool.false_eq_true, if_false]
        have hpos : (0 : ℚ) < (results.length : ℚ) := by
          have : 0 < results.length := Nat.pos_of_ne_zero hlen
          exact_mod_cast this
        have hfl : jsFloor (((results.length : ℤ) : ℚ) * (3 / 10)) < (results.length : ℤ) := by
          unfold jsFloor
          apply Int.floor_lt.mpr
          push_cast
          linarith
        omega

/-! ### The matcher: capture group 1 is defined in every match -/

theorem starAux_isSome (step : List Char → Option (List Char) → List MatchState)
    (hstep : ∀ s cap r, r ∈ step s cap → cap.isSome → r.2.isSome) :
    ∀ n s cap r, r ∈ starAux step n s cap → cap.isSome → r.2.isSome := by
  intro n
  induction n with
  | zero =>
    intro s cap r hr hc
    simp only [starAux, List.mem_singleton] at hr
    subst hr
    exact hc
  | succ n ih =>
    intro s cap r hr hc
    simp only [starAux, List.mem_append, List.mem_flatMap, List.mem_filter,
      List.mem_singleton] at hr
    rcases hr with ⟨r', ⟨hr', _⟩, hr⟩ | hr
    · exact ih r'.1 r'.2 r hr (hstep s cap r' hr' hc)
    · subst hr
      exact hc

theorem repAux_isSome (step : List Char → Option (List Char) → List MatchState)
    (hstep : ∀ s cap r, r ∈ step s cap → cap.isSome → r.2.isSome) :
    ∀ hi lo s cap r, r ∈ repAux step lo hi s cap → cap.isSome → r.2.isSome := by
  intro hi
  induction hi with
  | zero =>
    intro lo s cap r hr hc
    simp only [repAux, List.mem_singleton] at hr
    subst hr
    exact hc
  | succ hi ih =>
    intro lo s cap r hr hc
    simp only [repAux, List.mem_append, List.mem_flatMap] at hr
    rcases hr with ⟨r', hr', hr⟩ | hr
    · exact ih (lo - 1) r'.1 r'.2 r hr (hstep s cap r' hr' hc)
    · split_ifs at hr
      · simp only [List.mem_singleton] at hr
        subst hr
        exact hc
      · simp at hr

theorem run_isSome (re : Regex) :
    ∀ s cap r, r ∈ re.run s cap → (cap.isSome ∨ re.captures = true) → r.2.isSome := by
  induction re with
  | chr p =>
    intro s cap r hr hc
    cases s with
    | nil => simp [Regex.run] at hr
    | cons c t =>
      simp only [Regex.run] at hr
      split_ifs at hr
      · simp only [List.mem_singleton] at hr
        subst hr
        simpa [Regex.captures] using hc
      · simp at hr
  | cls items =>
    intro s cap r hr hc
    cases s with
    | nil => simp [Regex.run] at hr
    | cons c t =>
      simp only [Regex.run] at hr
      split_ifs at hr
      · simp only [List.mem_singleton] at hr
        subst hr
        simpa [Regex.captures] using hc
      · simp at hr
  | seq a b iha ihb =>
    intro s cap r hr hc
    simp only [Regex.run, List.mem_flatMap] at hr
    obtain ⟨r', hr', hr⟩ := hr
    simp only [Regex.captures, Bool.or_eq_true] at hc
    rcases hc with hc | hc | hc
    · exact ihb r'.1 r'.2 r hr (Or.inl (iha s cap r' hr' (Or.inl hc)))
    · exact ihb r'.1 r'.2 r hr (Or.inl (iha s cap r' hr' (Or.inr hc)))
    · exact ihb r'.1 r'.2 r hr (Or.inr hc)
  | alt a b iha ihb =>
    intro s cap r hr hc
    simp only [Regex.run, List.mem_append] at hr
    simp only [Regex.captures, Bool.and_eq_true] at hc
    rcases hr with hr | hr
    · exact iha s cap r hr (hc.imp id (fun h => h.1))
    · exact ihb s cap r hr (hc.imp id (fun h => h.2))
  | star a iha =>
    intro s cap r hr hc
    simp only [Regex.run] at hr
    have hc' : cap.isSome := by simpa [Regex.captures] using hc
    exact starAux_isSome (Regex.run a) (fun s cap r hr h => iha s cap r hr (Or.inl h))
      s.length s cap r hr hc'
  | rep lo hi a iha =>
    intro s cap r hr hc
    simp only [Regex.run] at hr
    have hc' : cap.isSome := by simpa [Regex.captures] using hc
    exact repAux_isSome (Regex.run a) (fun s cap r hr h => iha s cap r hr (Or.inl h))
      hi lo s cap r hr hc'
  | group a _ =>
    intro s cap r hr _
    simp only [Regex.run, List.mem_map] at hr
    obtain ⟨r', _, hr⟩ := hr
    subst hr
    rfl
  | eoi =>
    intro s cap r hr hc
    simp only [Regex.run] at hr
    split_ifs at hr
    · simp only [List.mem_singleton] at hr
      subst hr
      simpa [Regex.captures] using hc
    · simp at hr
  | exact p =>
    intro s cap r hr hc
    cases s with
    | nil => simp [Regex.run] at hr
    | cons c t =>
      simp only [Regex.run] at hr
      split_ifs at hr
      · simp only [List.mem_singleton] at hr
        subst hr
        simpa [Regex.captures] using hc
      · simp at hr

theorem execFrom_group1 (re : Regex) (hre : re.captures = true) :
    ∀ s index m, execFrom re index s = some m → ∃ g, m.group1 = some g := by
  have hhere : ∀ s index m, matchHere re index s = some m → ∃ g, m.group1 = some g := by
    intro s index m hm
    unfold matchHere at hm
    split at hm
    · rename_i r rest hrun
      have hmem : r ∈ re.run s none := by rw [hrun]; exact List.mem_cons_self _ _
      have hs := run_isSome re s none r hmem (Or.inr hre)
      simp only [Option.some.injEq] at hm
      subst hm
      exact Option.isSome_iff_exists.mp hs
    · simp at hm
  intro s
  induction s with
  | nil =>
    intro index m hm
    exact hhere [] index m (by simpa [execFrom] using hm)
  | cons c t ih =>
    intro index m hm
    simp only [execFrom] at hm
    cases hh : matchHere re index (c :: t) with
    | some m' =>
      rw [hh] at hm
      simp only [Option.some.injEq] at hm
      subst hm
      exact hhere _ _ _ hh
    | none =>
      rw [hh] at hm
      exact ih _ _ hm

theorem patterns_capture (key : String) (pattern : Regex) (h : (key, pattern) ∈ patterns) :
    pattern.captures = true := by
  simp only [patterns, List.mem_cons, Prod.mk.injEq, List.mem_singleton, List.not_mem_nil,
    or_false] at h
  rcases h with ⟨_, h⟩ | ⟨_, h⟩ | ⟨_, h⟩ | ⟨_, h⟩ | ⟨_, h⟩ <;> subst h <;> rfl

theorem jsMatch_group1 (text key : String) (pattern : Regex) (h : (key, pattern) ∈ patterns)
    (m : MatchResult) (hm : jsMatch text pattern = some m) : ∃ g, m.group1 = some g :=
  execFrom_group1 pattern (patterns_capture key pattern h) _ _ _ hm

/-! ### C13 -/

theorem extractStep_eq (text key : String) (pattern : Regex) (h : (key, pattern) ∈ patterns)
    (obj : List (String × String)) :
    extractStep text obj (key, pattern)
      = .ok (match capturedField text pattern with
          | some v => setProp obj key v
          | none => obj) := by
  unfold extractStep capturedField
  cases hm : jsMatch text pattern with
  | none => rfl
  | some m =>
    obtain ⟨g, hg⟩ := jsMatch_group1 text key pattern h m hm
    simp [hg]

theorem extractDocumentData_eq (text : String) :
    extractDocumentData text
      = .ok (patterns.filterMap (fun e => (capturedField text e.2).map (fun v => (e.1, v)))) := by
  have h1 := extractStep_eq text "name" namePattern (by simp [patterns])
  have h2 := extractStep_eq text "documentNumber" documentNumberPattern (by simp [patterns])
  have h3 := extractStep_eq text "dateOfBirth" dateOfBirthPattern (by simp [patterns])
  have h4 := extractStep_eq text "expiryDate" expiryDatePattern (by simp [patterns])
  have h5 := extractStep_eq text "nationality" nationalityPattern (by simp [patterns])
  simp only [extractDocumentData, patterns, List.foldlM, h1, h2, h3, h4, h5, bind, Except.bind,
    pure, Except.pure, List.filterMap_cons, List.filterMap_nil]
  clear h1 h2 h3 h4 h5
  generalize capturedField text namePattern = o1
  generalize capturedField text documentNumberPattern = o2
  generalize capturedField text dateOfBirthPattern = o3
  generalize capturedField text expiryDatePattern = o4
  generalize capturedField text nationalityPattern = o5
  cases o1 <;> cases o2 <;> cases o3 <;> cases o4 <;> cases o5 <;> simp [setProp]

theorem lookup_extracted (text key : String) (pattern : Regex)
    (h : (key, pattern) ∈ patterns) :
    (patterns.filterMap (fun e => (capturedField text e.2).map (fun v => (e.1, v)))).lookup key
      = capturedField text pattern := by
  simp only [patterns, List.mem_cons, Prod.mk.injEq, List.mem_singleton, List.not_mem_nil,
    or_false] at h
  simp only [patterns, List.filterMap_cons, List.filterMap_nil]
  rcases h with ⟨rfl, rfl⟩ | ⟨rfl, rfl⟩ | ⟨rfl, rfl⟩ | ⟨rfl, rfl⟩ | ⟨rfl, rfl⟩ <;>
  · generalize capturedField text namePattern = o1
    generalize capturedField text documentNumberPattern = o2
    generalize capturedField text dateOfBirthPattern = o3
    generalize capturedField text expiryDatePattern = o4
    generalize capturedField text nationalityPattern = o5
    cases o1 <;> cases o2 <;> cases o3 <;> cases o4 <;> cases o5 <;> simp [List.lookup]

theorem lookup_extracted_other (text key : String)
    (h : key ∉ ["name", "documentNumber", "dateOfBirth", "expiryDate", "nationality"]) :
    (patterns.filterMap (fun e => (capturedField text e.2).map (fun v => (e.1, v)))).lookup key
      = none := by
  simp only [List.mem_cons, List.mem_singleton, List.not_mem_nil, or_false, not_or] at h
  obtain ⟨h1, h2, h3, h4, h5⟩ := h
  have b1 : (key == "name") = false := beq_eq_false_iff_ne.mpr h1
  have b2 : (key == "documentNumber") = false := beq_eq_false_iff_ne.mpr h2
  have b3 : (key == "dateOfBirth") = false := beq_eq_false_iff_ne.mpr h3
  have b4 : (key == "expiryDate") = false := beq_eq_false_iff_ne.mpr h4
  have b5 : (key == "nationality") = false := beq_eq_false_iff_ne.mpr h5
  simp only [patterns, List.filterMap_cons, List.filterMap_nil]
  generalize capturedField text namePattern = o1
  generalize capturedField text documentNumberPattern = o2
  generalize capturedField text dateOfBirthPattern = o3
  generalize capturedField text expiryDatePattern = o4
  generalize capturedField text nationalityPattern = o5
  cases o1 <;> cases o2 <;> cases o3 <;> cases o4 <;> cases o5 <;>
    simp [List.lookup, b1, b2, b3, b4, b5]

/-- C13: for every input text `extractDocumentData` returns an object (it does
not throw) that has a key for a field exactly when that field's pattern matches
the text, the keys being among name, documentNumber, dateOfBirth, expiryDate and
nationality, and each value is the first capture group of the match with
leading and trailing whitespace removed. The result depends on the text only:
the patterns carry no `g` flag and the method reads no other state. -/
theorem C13_extracted_fields (text : String) :
    ∃ extracted, extractDocumentData text = .ok extracted
      ∧ (∀ key pattern, (key, pattern) ∈ patterns →
          (jsMatch text pattern = none → extracted.lookup key = none)
          ∧ (∀ m, jsMatch text pattern = some m →
              ∃ g, m.group1 = some g ∧ extracted.lookup key = some (String.mk (jsTrim g))))
      ∧ (∀ key, key ∉ ["name", "documentNumber", "dateOfBirth", "expiryDate", "nationality"] →
          extracted.lookup key = none) := by
  refine ⟨_, extractDocumentData_eq text, ?_, fun key hk => lookup_extracted_other text key hk⟩
  intro key pattern hmem
  rw [lookup_extracted text key pattern hmem]
  constructor
  · intro hm
    simp [capturedField, hm]
  · intro m hm
    obtain ⟨g, hg⟩ := jsMatch_group1 text key pattern hmem m hm
    exact ⟨g, hg, by simp [capturedField, hm, hg]⟩

/-- C13 at the text with a name line and a date of birth: the object holds
exactly the two fields. -/
theorem C13_extracted_fields_witness :
    ∃ extracted, extractDocumentData "Name: Jane Doe\nDOB: 01/02/1990" = .ok extracted
      ∧ (∀ key pattern, (key, pattern) ∈ patterns →
          (jsMatch "Name: Jane Doe\nDOB: 01/02/1990" pattern = none
            → extracted.lookup key = none)
          ∧ (∀ m, jsMatch "Name: Jane Doe\nDOB: 01/02/1990" pattern = some m →
              ∃ g, m.group1 = some g ∧ extracted.lookup key = some (String.mk (jsTrim g))))
      ∧ (∀ key, key ∉ ["name", "documentNumber", "dateOfBirth", "expiryDate", "nationality"] →
          extracted.lookup key = none) :=
  C13_extracted_fields "Name: Jane Doe\nDOB: 01/02/1990"

/-! ### The matcher on the name pattern -/

theorem run_chr_cons (p c : Char) (t : List Char) (cap : Option (List Char)) :
    (Regex.chr p).run (c :: t) cap = if c.toUpper = p.toUpper then [(t, cap)] else [] := rfl
theorem run_chr_nil (p : Char) (cap : Option (List Char)) : (Regex.chr p).run [] cap = [] := rfl
theorem run_cls_cons (items : List ClassItem) (c : Char) (t : List Char) (cap : Option (List Char)) :
    (Regex.cls items).run (c :: t) cap = if classMatches items c then [(t, cap)] else [] := rfl
theorem run_cls_nil (items : List ClassItem) (cap : Option (List Char)) :
    (Regex.cls items).run [] cap = [] := rfl
theorem run_seq (a b : Regex) (s : List Char) (cap : Option (List Char)) :
    (Regex.seq a b).run s cap = (a.run s cap).flatMap (fun r => b.run r.1 r.2) := rfl
theorem run_alt (a b : Regex) (s : List Char) (cap : Option (List Char)) :
    (Regex.alt a b).run s cap = a.run s cap ++ b.run s cap := rfl
theorem run_group (a : Regex) (s : List Char) (cap : Option (List Char)) :
    (Regex.group a).run s cap
      = (a.run s cap).map (fun r => (r.1, some (s.take (s.length - r.1.length)))) := rfl
theorem run_eoi_nil (cap : Option (List Char)) : Regex.eoi.run [] cap = [([], cap)] := rfl
theorem run_eoi_cons (c : Char) (t : List Char) (cap : Option (List Char)) :
    Regex.eoi.run (c :: t) cap = [] := rfl

theorem starAux_cls (items : List ClassItem) :
    ∀ n s cap, s.length ≤ n →
      starAux (Regex.run (.cls items)) n s cap = classStar items s cap := by
  intro n
  induction n with
  | zero =>
    intro s cap h
    have : s = [] := List.length_eq_zero.mp (Nat.le_zero.mp h)
    subst this
    rfl
  | succ n ih =>
    intro s cap h
    cases s with
    | nil => simp [starAux, classStar, run_cls_nil]
    | cons c t =>
      have ht : t.length ≤ n := by simpa using h
      by_cases hc : classMatches items c = true
      · simp only [starAux, run_cls_cons, hc, if_true]
        simp [classStar, hc, ih t cap ht]
      · simp only [starAux, run_cls_cons, hc]
        simp [classStar, hc]

theorem run_star_cls (items : List ClassItem) (s : List Char) (cap : Option (List Char)) :
    (Regex.star (.cls items)).run s cap = classStar items s cap :=
  starAux_cls items s.length s cap le_rfl


theorem toUpper_eq_N (c : Char) (h : c.toUpper = 'N') : c = 'n' ∨ c = 'N' := by
  unfold Char.toUpper at h
  simp only at h
  split_ifs at h with hr
  · left
    obtain ⟨h1, h2⟩ := hr
    have hc : c = Char.ofNat c.toNat := (Char.ofNat_toNat c).symm
    generalize c.toNat = n at h h1 h2 hc
    subst hc
    interval_cases n <;> first | rfl | (exact absurd h (by decide))
  · right; exact h

theorem namePattern_run_of_ne (c : Char) (t : List Char) (h : c.toUpper ≠ 'N') :
    namePattern.run (c :: t) none = [] := by
  simp [namePattern, alts, lit, Regex.run, h]

theorem namePattern_run_line_end :
    (namePattern.run "Name: Jane Doe\n".toList none).head?
      = some ([], some "Jane Doe\n".toList) := by
  decide

theorem namePattern_run_line_then (c : Char) (tl : List Char)
    (h : classMatches nameChars c = false) :
    (namePattern.run ("Name: Jane Doe\n".toList ++ c :: tl) none).head?
      = some (c :: tl, some "Jane Doe".toList) := by
  have hJ : ∀ x ∈ "Jane Doe\n".toList, classMatches nameChars x = true := by decide
  have hs1 : classMatches [ClassItem.space, ClassItem.single ':'] ':' = true := by decide
  have hs2 : classMatches [ClassItem.space, ClassItem.single ':'] ' ' = true := by decide
  have hs3 : classMatches [ClassItem.space, ClassItem.single ':'] 'J' = false := by decide
  simp at hJ
  have hn : ¬ (c.toUpper = '\n') := by
    intro hc
    have hsp : isJsSpace c.toUpper = false := by
      simp only [classMatches, nameChars, List.any_cons, List.any_nil, ClassItem.test,
        Bool.or_false, Bool.or_eq_false_iff] at h
      exact h.2.2.1.2
    rw [hc] at hsp
    exact absurd hsp (by decide)
  simp [namePattern, alts, lit, sepClass, plus, run_seq, run_alt, run_group, run_chr_cons,
    run_cls_cons, run_star_cls, classStar, hJ, hs1, hs2, hs3, h, hn, run_eoi_cons]

theorem execFrom_of_head (re : Regex) (index : ℕ) (s : List Char) (r : MatchState)
    (h : (re.run s none).head? = some r) :
    ∃ m, execFrom re index s = some m ∧ m.group1 = r.2 := by
  have hm : ∃ m, matchHere re index s = some m ∧ m.group1 = r.2 := by
    unfold matchHere
    cases hrun : re.run s none with
    | nil => simp [hrun] at h
    | cons r' rest =>
      simp only [hrun, List.head?_cons, Option.some.injEq] at h
      subst h
      exact ⟨_, rfl, rfl⟩
  obtain ⟨m, hm1, hm2⟩ := hm
  cases s with
  | nil => exact ⟨m, by simpa [execFrom] using hm1, hm2⟩
  | cons c t => exact ⟨m, by simp [execFrom, hm1], hm2⟩

theorem execFrom_namePattern_skip (pre : List Char) (hpre : ∀ c ∈ pre, c ≠ 'n' ∧ c ≠ 'N') :
    ∀ (index : ℕ) (s : List Char),
      execFrom namePattern index (pre ++ s) = execFrom namePattern (index + pre.length) s := by
  induction pre with
  | nil => intro index s; rfl
  | cons c t ih =>
    intro index s
    have hc : c.toUpper ≠ 'N' := by
      intro h
      have := hpre c (List.mem_cons_self _ _)
      rcases toUpper_eq_N c h with h' | h'
      · exact this.1 h'
      · exact this.2 h'
    have hmh : matchHere namePattern index (c :: (t ++ s)) = none := by
      unfold matchHere
      rw [namePattern_run_of_ne c (t ++ s) hc]
    have ht := ih (fun x hx => hpre x (List.mem_cons_of_mem _ hx)) (index + 1) s
    rw [List.cons_append, execFrom, hmh]
    show execFrom namePattern (index + 1) (t ++ s) = _
    have e : index + 1 + t.length = index + (t.length + 1) := by omega
    rw [ht, List.length_cons, e]

theorem capturedField_name_of_line (pre rest : String)
    (hpre : ∀ c ∈ pre.toList, c ≠ 'n' ∧ c ≠ 'N')
    (hrest : rest = "" ∨ ∃ c, rest.toList.head? = some c ∧ classMatches nameChars c = false) :
    capturedField (pre ++ "Name: Jane Doe\n" ++ rest) namePattern = some "Jane Doe" := by
  unfold capturedField jsMatch
  have hl : (pre ++ "Name: Jane Doe\n" ++ rest).toList
      = pre.toList ++ ("Name: Jane Doe\n".toList ++ rest.toList) := by
    simp [String.toList, String.data_append]
  rw [hl, execFrom_namePattern_skip pre.toList hpre]
  rcases hrest with h | ⟨c, hc, hcls⟩
  · subst h
    obtain ⟨m, hm, hg⟩ := execFrom_of_head namePattern (0 + pre.toList.length)
      ("Name: Jane Doe\n".toList ++ "".toList) _ namePattern_run_line_end
    rw [hm]
    show m.group1.map (fun g => String.mk (jsTrim g)) = some "Jane Doe"
    rw [hg]
    decide
  · obtain ⟨tl, htl⟩ : ∃ tl, rest.toList = c :: tl := by
      cases hr : rest.toList with
      | nil => rw [hr] at hc; cases hc
      | cons x tl =>
        rw [hr] at hc
        simp only [List.head?_cons, Option.some.injEq] at hc
        exact ⟨tl, by rw [hc]⟩
    rw [htl]
    obtain ⟨m, hm, hg⟩ := execFrom_of_head namePattern (0 + pre.toList.length)
      ("Name: Jane Doe\n".toList ++ c :: tl) _ (namePattern_run_line_then c tl hcls)
    rw [hm]
    show m.group1.map (fun g => String.mk (jsTrim g)) = some "Jane Doe"
    rw [hg]
    show Option.map (fun g => String.mk (jsTrim g)) (some "Jane Doe".toList) = some "Jane Doe"
    decide

/-! ### C12 -/

/-- C12, evaluation at the failing input: the text "Name: Jane Doe\nSmith\n"
contains the line "Name: Jane Doe\n". The class `[a-zA-Z\s]` admits the newline,
so the greedy group runs on to the end of the text, where the terminator
`(?:\n|$)` is met, and the extracted name is "Jane Doe\nSmith", not "Jane Doe". -/
theorem C12_next_line_captured :
    ∃ extracted, extractDocumentData "Name: Jane Doe\nSmith\n" = .ok extracted
      ∧ extracted.lookup "name" = some "Jane Doe\nSmith"
      ∧ extracted.lookup "name" ≠ some "Jane Doe" :=
  ⟨[("name", "Jane Doe\nSmith")], by rfl, by decide, by decide⟩

/-- A case in which the name pattern stops at the end of the line: when no letter
n or N stands before the line "Name: Jane Doe\n" and the line is followed by
nothing or by a character outside the class `[a-zA-Z\s]`, the extracted name is
"Jane Doe". -/
theorem name_of_line (pre rest : String)
    (hpre : ∀ c ∈ pre.toList, c ≠ 'n' ∧ c ≠ 'N')
    (hrest : rest = "" ∨ ∃ c, rest.toList.head? = some c ∧ classMatches nameChars c = false) :
    ∃ extracted, extractDocumentData (pre ++ "Name: Jane Doe\n" ++ rest) = .ok extracted
      ∧ extracted.lookup "name" = some "Jane Doe" := by
  refine ⟨_, extractDocumentData_eq _, ?_⟩
  rw [lookup_extracted _ "name" namePattern (by simp [patterns])]
  exact capturedField_name_of_line pre rest hpre hrest

/-- The text that consists of exactly the line "Name: Jane Doe\n" gives the name
"Jane Doe". -/
theorem name_of_exact_line :
    ∃ extracted, extractDocumentData "Name: Jane Doe\n" = .ok extracted
      ∧ extracted.lookup "name" = some "Jane Doe" :=
  name_of_line "" "" (by intro c hc; cases hc) (Or.inl rfl)

/-! ### C14 and C15 -/

theorem authenticityConfidence_round_bounds (r : ℚ) (h0 : 0 ≤ r) (h1 : r < 1) :
    92 ≤ round1 (authenticityConfidence r) ∧ round1 (authenticityConfidence r) ≤ 98 := by
  have hb := @round1_bounds 92 98 (authenticityConfidence r)
    (by unfold authenticityConfidence; push_cast; linarith)
    (by unfold authenticityConfidence; push_cast; linarith)
  simpa using hb

/-- C14: for every random draw in `[0,1)` the confidence that
`analyzeDocumentAuthenticity` resolves with, rounded to one decimal, lies in
`[92,98]`. -/
theorem C14_authenticity_confidence_range {α : Type} (imageFile : α) (r : ℚ)
    (h0 : 0 ≤ r) (h1 : r < 1) :
    92 ≤ (analyzeDocumentAuthenticity imageFile r).confidence
      ∧ (analyzeDocumentAuthenticity imageFile r).confidence ≤ 98 := by
  have hb := authenticityConfidence_round_bounds r h0 h1
  simpa [analyzeDocumentAuthenticity] using hb

/-- C14 at the random draw 1/2: the confidence is 95. -/
theorem C14_authenticity_confidence_range_witness :
    92 ≤ (analyzeDocumentAuthenticity "passport.jpg" (1 / 2)).confidence
      ∧ (analyzeDocumentAuthenticity "passport.jpg" (1 / 2)).confidence ≤ 98 :=
  C14_authenticity_confidence_range "passport.jpg" (1 / 2) (by norm_num) (by norm_num)

theorem round1_intCast (n : ℤ) : round1 (n : ℚ) = n := by
  unfold round1 jsRound
  have h : ⌊(n : ℚ) * 10 + 1 / 2⌋ = n * 10 := by
    rw [Int.floor_eq_iff]
    push_cast
    constructor <;> linarith
  rw [h]
  push_cast
  field_simp

/-- C15 as stated fails: at the random draw 38/75 the unrounded confidence is
95.04, the returned confidence is 95, not above 95, and `hologram.authentic`
is true. -/
theorem C15_flag_differs_from_returned :
    authenticityConfidence (38 / 75) = 9504 / 100
      ∧ (analyzeDocumentAuthenticity "passport.jpg" (38 / 75)).confidence = 95
      ∧ ¬ ((analyzeDocumentAuthenticity "passport.jpg" (38 / 75)).confidence > 95)
      ∧ (analyzeDocumentAuthenticity "passport.jpg" (38 / 75)).features.hologram.authentic
          = true := by
  have hc : authenticityConfidence (38 / 75) = 9504 / 100 := by
    norm_num [authenticityConfidence]
  have hr : (analyzeDocumentAuthenticity "passport.jpg" (38 / 75)).confidence = 95 := by
    simp only [analyzeDocumentAuthenticity, hc, round1, jsRound]
    norm_num
  refine ⟨hc, hr, ?_, ?_⟩
  · rw [hr]; norm_num
  · simp only [analyzeDocumentAuthenticity, hc]
    norm_num

theorem flag_of_returned {T : ℤ} {x : ℚ} : (round1 x > T → x > T) ∧ (x > T → round1 x ≥ T) := by
  constructor
  · intro h
    by_contra hx
    have := round1_mono (not_lt.mp hx)
    rw [round1_intCast] at this
    exact absurd h (not_lt.mpr this)
  · intro h
    have := round1_mono (le_of_lt h)
    rwa [round1_intCast] at this

/-- C15 amended: each flag is the comparison of the unrounded confidence
`92 + 6 * random` with the feature's threshold (95, 94, 93, 90), and the
returned confidence is that value rounded to one decimal. Hence a returned
confidence above the threshold makes the flag true, a true flag makes the
returned confidence at least the threshold, and `uvFeatures.genuine` is always
true, as is `confidence > 90`. -/
theorem C15_flags_of_unrounded_confidence {α : Type} (imageFile : α) (r : ℚ)
    (h0 : 0 ≤ r) (h1 : r < 1) :
    (analyzeDocumentAuthenticity imageFile r).confidence = round1 (authenticityConfidence r)
      ∧ ((analyzeDocumentAuthenticity imageFile r).features.hologram.authentic = true
          ↔ authenticityConfidence r > 95)
      ∧ ((analyzeDocumentAuthenticity imageFile r).features.barcodeData.isMatches = true
          ↔ authenticityConfidence r > 94)
      ∧ ((analyzeDocumentAuthenticity imageFile r).features.microtext.readable = true
          ↔ authenticityConfidence r > 93)
      ∧ ((analyzeDocumentAuthenticity imageFile r).features.uvFeatures.genuine = true
          ↔ authenticityConfidence r > 90)
      ∧ ((analyzeDocumentAuthenticity imageFile r).confidence > 95 →
          (analyzeDocumentAuthenticity imageFile r).features.hologram.authentic = true)
      ∧ ((analyzeDocumentAuthenticity imageFile r).features.hologram.authentic = true →
          (analyzeDocumentAuthenticity imageFile r).confidence ≥ 95)
      ∧ ((analyzeDocumentAuthenticity imageFile r).confidence > 94 →
          (analyzeDocumentAuthenticity imageFile r).features.barcodeData.isMatches = true)
      ∧ ((analyzeDocumentAuthenticity imageFile r).features.barcodeData.isMatches = true →
          (analyzeDocumentAuthenticity imageFile r).confidence ≥ 94)
      ∧ ((analyzeDocumentAuthenticity imageFile r).confidence > 93 →
          (analyzeDocumentAuthenticity imageFile r).features.microtext.readable = true)
      ∧ ((analyzeDocumentAuthenticity imageFile r).features.microtext.readable = true →
          (analyzeDocumentAuthenticity imageFile r).confidence ≥ 93)
      ∧ (analyzeDocumentAuthenticity imageFile r).features.uvFeatures.genuine = true
      ∧ (analyzeDocumentAuthenticity imageFile r).confidence > 90 := by
  have h95 := @flag_of_returned 95 (authenticityConfidence r)
  have h94 := @flag_of_returned 94 (authenticityConfidence r)
  have h93 := @flag_of_returned 93 (authenticityConfidence r)
  have hraw : authenticityConfidence r ≥ 92 := by unfold authenticityConfidence; linarith
  have hret := (authenticityConfidence_round_bounds r h0 h1).1
  simp only [analyzeDocumentAuthenticity, decide_eq_true_eq]
  push_cast at h95 h94 h93
  refine ⟨trivial, trivial, trivial, trivial, trivial, h95.1, h95.2, h94.1, h94.2, h93.1, h93.2,
    by linarith, by linarith⟩

/-- C15 amended, at the random draw 38/75. -/
theorem C15_flags_of_unrounded_confidence_witness :
    (analyzeDocumentAuthenticity "passport.jpg" (38 / 75)).features.hologram.authentic = true
      ∧ (analyzeDocumentAuthenticity "passport.jpg" (38 / 75)).confidence ≥ 95 :=
  have h := C15_flags_of_unrounded_confidence "passport.jpg" (38 / 75) (by norm_num)
    (by norm_num)
  have ha := h.2.1.mpr (by norm_num [authenticityConfidence])
  ⟨ha, h.2.2.2.2.2.2.1 ha⟩

/-! ### C16 and C17 -/

/-- C16 as stated fails: for document confidence 50 the handler of
`/api/calculate-trust` labels the Document Authenticity factor
"Medium Positive", though its score 50 is not above 75. -/
theorem C16_handler_has_no_low_label :
    ∃ f, (calculateTrust (some 50) none 0).factors.head? = some f
      ∧ f.category = "Document Authenticity" ∧ f.score = 50 ∧ f.score ≤ 75
      ∧ f.impact = "Medium Positive" ∧ f.impact ≠ "Low Positive" := by
  refine ⟨Factor.mk "Document Authenticity" 50 "Medium Positive", ?_, rfl, rfl, ?_, rfl,
    by decide⟩
  · simp [calculateTrust, handlerDocScore, jsOr]
    norm_num
  · norm_num

/-- C16 amended: in `AIServices.calculateTrustScore` the Document Authenticity
factor is labelled "High Positive" when its score is above 90, "Medium Positive"
when it is above 75 and at most 90, "Low Positive" when it is at most 75; in the
handler of `/api/calculate-trust` the label is "High Positive" when the score is
above 90 and "Medium Positive" otherwise. -/
theorem C16_document_impact (d : DocumentData) (b : BiometricData) (beh : BehavioralData)
    (docConf bioConf : Option ℚ) (r : ℚ) :
    (∃ f, (calculateTrustScore d b beh).factors.head? = some f
        ∧ f.category = "Document Authenticity" ∧ f.score = jsOr d.confidence 85
        ∧ (f.score > 90 → f.impact = "High Positive")
        ∧ (75 < f.score ∧ f.score ≤ 90 → f.impact = "Medium Positive")
        ∧ (f.score ≤ 75 → f.impact = "Low Positive"))
      ∧ (∃ f, (calculateTrust docConf bioConf r).factors.head? = some f
        ∧ f.category = "Document Authenticity" ∧ f.score = jsOr docConf 85
        ∧ (f.score > 90 → f.impact = "High Positive")
        ∧ (f.score ≤ 90 → f.impact = "Medium Positive")) := by
  constructor
  · refine ⟨_, rfl, rfl, rfl, ?_, ?_, ?_⟩
    · intro h
      simp only at h
      simp [h]
    · intro h
      simp only at h
      simp [not_lt.mpr h.2, h.1]
    · intro h
      simp only at h
      have h90 : ¬ (jsOr d.confidence 85 > 90) := by
        intro h'
        linarith
      simp [h90, not_lt.mpr h]
  · refine ⟨_, rfl, rfl, rfl, ?_, ?_⟩
    · intro h
      simp only [handlerDocScore] at h
      simp [handlerDocScore, h]
    · intro h
      simp only [handlerDocScore] at h
      simp [handlerDocScore, not_lt.mpr h]

/-- C16 amended, at document confidence 50: "Low Positive" in
`calculateTrustScore`, "Medium Positive" in the handler. -/
theorem C16_document_impact_witness :
    (∃ f, (calculateTrustScore ⟨some 50, none⟩ ⟨some 80, true⟩ BehavioralData.empty).factors.head?
        = some f ∧ f.score = 50 ∧ f.impact = "Low Positive")
      ∧ (∃ f, (calculateTrust (some 50) none 0).factors.head? = some f
        ∧ f.score = 50 ∧ f.impact = "Medium Positive") := by
  obtain ⟨⟨f, hf, _, hs, _, _, hlow⟩, ⟨g, hg, _, hgs, _, hmed⟩⟩ :=
    C16_document_impact ⟨some 50, none⟩ ⟨some 80, true⟩ BehavioralData.empty (some 50) none 0
  have hs' : f.score = 50 := by rw [hs]; norm_num [jsOr]
  have hgs' : g.score = 50 := by rw [hgs]; norm_num [jsOr]
  exact ⟨⟨f, hf, hs', hlow (by rw [hs']; norm_num)⟩, ⟨g, hg, hgs', hmed (by rw [hgs']; norm_num)⟩⟩

/-- C17 as stated fails: for biometric confidence 88, which is above 85 and
at most 90, `calculateTrustScore` labels the Biometric Match factor
"High Positive". -/
theorem C17_score_88_is_high :
    ∃ f, (calculateTrustScore ⟨some 95, none⟩ ⟨some 88, true⟩ BehavioralData.empty).factors[1]?
        = some f
      ∧ f.category = "Biometric Match" ∧ f.score = 88 ∧ 85 < f.score ∧ f.score ≤ 90
      ∧ f.impact = "High Positive" ∧ f.impact ≠ "Medium Positive" := by
  refine ⟨Factor.mk "Biometric Match" 88 "High Positive", ?_, rfl, rfl, ?_, ?_, rfl,
    by decide⟩
  · simp [calculateTrustScore, jsOr]
    norm_num
  · norm_num
  · norm_num

/-- C17 amended: in `AIServices.calculateTrustScore` the Biometric Match factor
is labelled "High Positive" when its score is above 85, "Medium Positive" when
it is above 70 and at most 85, and "Low Positive" when it is at most 70. -/
theorem C17_biometric_impact (d : DocumentData) (b : BiometricData) (beh : BehavioralData) :
    ∃ f, (calculateTrustScore d b beh).factors[1]? = some f
      ∧ f.category = "Biometric Match" ∧ f.score = jsOr b.confidence 80
      ∧ (f.score > 85 → f.impact = "High Positive")
      ∧ (70 < f.score ∧ f.score ≤ 85 → f.impact = "Medium Positive")
      ∧ (f.score ≤ 70 → f.impact = "Low Positive") := by
  refine ⟨Factor.mk "Biometric Match" (jsOr b.confidence 80)
      (if jsOr b.confidence 80 > 85 then "High Positive"
        else if jsOr b.confidence 80 > 70 then "Medium Positive" else "Low Positive"),
    rfl, rfl, rfl, ?_, ?_, ?_⟩
  · intro h
    simp only at h
    simp [h]
  · intro h
    simp only at h
    simp [not_lt.mpr h.2, h.1]
  · intro h
    simp only at h
    have h85 : ¬ (jsOr b.confidence 80 > 85) := by
      intro h'
      linarith
    simp [h85, not_lt.mpr h]

/-- C17 amended, at biometric confidence 80: the label is "Medium Positive". -/
theorem C17_biometric_impact_witness :
    ∃ f, (calculateTrustScore ⟨some 95, none⟩ ⟨some 80, true⟩ BehavioralData.empty).factors[1]?
        = some f ∧ f.score = 80 ∧ f.impact = "Medium Positive" := by
  obtain ⟨f, hf, _, hs, _, hmed, _⟩ :=
    C17_biometric_impact ⟨some 95, none⟩ ⟨some 80, true⟩ BehavioralData.empty
  have hs' : f.score = 80 := by rw [hs]; norm_num [jsOr]
  exact ⟨f, hf, hs', hmed (by rw [hs']; norm_num)⟩

/-! ### C18 -/

/-- C18: `analyzeBehavior` returns 75 when the behavioural data carries none of
`mouseMovements`, `typingCadence` and `sessionTime`, so `calculateTrustScore`
called without behavioural data gives the Behavioral Signals factor the score
75, which enters the weighted sum as `75 * 0.15`. -/
theorem C18_default_behavior_score (d : DocumentData) (b : BiometricData) :
    analyzeBehavior BehavioralData.empty = 75
      ∧ (calculateTrustScore d b BehavioralData.empty).factors[2]?
          = some { category := "Behavioral Signals", score := 75, impact := "Low Positive" }
      ∧ trustScoreSum d b BehavioralData.empty
          = jsOr d.confidence 85 * (4 / 10) + jsOr b.confidence 80 * (35 / 100)
            + 75 * (15 / 100) + assessRiskIndicators d b * (1 / 10) := by
  have h : analyzeBehavior BehavioralData.empty = 75 := by
    norm_num [analyzeBehavior, BehavioralData.empty]
  refine ⟨h, ?_, ?_⟩
  · simp only [calculateTrustScore, h]
    norm_num
  · simp only [trustScoreSum, h]
    ring

/-! ### C19 -/

/-- C19: the weights total 1 in both schemes (0.4 + 0.35 + 0.25 in the handler
of `/api/calculate-trust`, 0.4 + 0.35 + 0.15 + 0.1 in `calculateTrustScore`),
so whenever every factor score equals the same value, the unrounded weighted
sum equals that value. -/
theorem C19_weights_total (docConf bioConf : Option ℚ) (r : ℚ) (d : DocumentData)
    (b : BiometricData) (beh : BehavioralData) (s t : ℚ)
    (h1 : handlerDocScore docConf = s) (h2 : handlerBioScore bioConf = s)
    (h3 : handlerBehaviorScore r = s)
    (g1 : jsOr d.confidence 85 = t) (g2 : jsOr b.confidence 80 = t)
    (g3 : analyzeBehavior beh = t) (g4 : assessRiskIndicators d b = t) :
    handlerScore docConf bioConf r
        = handlerDocScore docConf * (4 / 10) + handlerBioScore bioConf * (35 / 100)
          + handlerBehaviorScore r * (25 / 100)
      ∧ ((4 / 10 : ℚ) + 35 / 100 + 25 / 100 = 1)
      ∧ handlerScore docConf bioConf r = s
      ∧ trustScoreSum d b beh
        = jsOr d.confidence 85 * (4 / 10) + jsOr b.confidence 80 * (35 / 100)
          + analyzeBehavior beh * (15 / 100) + assessRiskIndicators d b * (1 / 10)
      ∧ ((4 / 10 : ℚ) + 35 / 100 + 15 / 100 + 1 / 10 = 1)
      ∧ trustScoreSum d b beh = t := by
  refine ⟨by unfold handlerScore; ring, by norm_num, ?_, by unfold trustScoreSum; ring,
    by norm_num, ?_⟩
  · unfold handlerScore
    rw [h1, h2, h3]
    ring
  · unfold trustScoreSum
    rw [g1, g2, g3, g4]
    ring

/-- C19 with every handler score equal to 85 and every `calculateTrustScore`
score equal to 90. -/
theorem C19_weights_total_witness :
    handlerScore none (some 85) (1 / 2) = 85
      ∧ trustScoreSum ⟨some 90, none⟩ ⟨some 90, true⟩
          { mouseMovements := some true, typingCadence := none, sessionTime := some 60 } = 90 :=
  have h := C19_weights_total none (some 85) (1 / 2) ⟨some 90, none⟩ ⟨some 90, true⟩
    { mouseMovements := some true, typingCadence := none, sessionTime := some 60 } 85 90
    (by norm_num [handlerDocScore, jsOr]) (by norm_num [handlerBioScore, jsOr])
    (by norm_num [handlerBehaviorScore]) (by norm_num [jsOr]) (by norm_num [jsOr])
    (by norm_num [analyzeBehavior]) (by norm_num [assessRiskIndicators])
  ⟨h.2.2.1, h.2.2.2.2.2⟩

/-! ### C20 -/

/-- C20: for every outcome of the real Aadhaar call, `extractAadhaarData`
returns (it cannot throw) a result with `success == true`; its source is
"real_api" exactly when `callRealAadhaarAPI` returned, which is when the
response was OK and its JSON body could be read, and "fallback_demo" exactly
when the call threw (network error, non-OK response, unreadable body). -/
theorem C20_aadhaar_source (outcome : FetchOutcome) (r1 r2 : ℚ) :
    (extractAadhaarData outcome r1 r2).success = true
      ∧ ((extractAadhaarData outcome r1 r2).source = "real_api"
          ↔ ∃ res, callRealAadhaarAPI outcome = .ok res)
      ∧ ((extractAadhaarData outcome r1 r2).source = "fallback_demo"
          ↔ ∃ e, callRealAadhaarAPI outcome = .error e)
      ∧ ((∃ res, callRealAadhaarAPI outcome = .ok res)
          ↔ ∃ status statusText body,
              outcome = FetchOutcome.response true status statusText (.ok body)) := by
  have hsucc : ∀ res, callRealAadhaarAPI outcome = .ok res → res.success = true := by
    intro res h
    unfold callRealAadhaarAPI at h
    cases outcome with
    | networkError m => simp at h
    | response ok status statusText json =>
      cases ok with
      | false => simp at h
      | true =>
        cases json with
        | error e => simp at h
        | ok body =>
          simp only [Bool.not_true, Bool.false_eq_true, if_false, Except.ok.injEq] at h
          rw [← h]
  refine ⟨?_, ?_, ?_, ?_⟩
  · unfold extractAadhaarData
    cases h : callRealAadhaarAPI outcome with
    | error e => rfl
    | ok res => simp [hsucc res h]
  · unfold extractAadhaarData
    cases h : callRealAadhaarAPI outcome with
    | error e => simp [getFallbackAadhaarData]
    | ok res => simp [hsucc res h]
  · unfold extractAadhaarData
    cases h : callRealAadhaarAPI outcome with
    | error e => simp [getFallbackAadhaarData]
    | ok res => simp [hsucc res h]
  · unfold callRealAadhaarAPI
    cases outcome with
    | networkError m => simp
    | response ok status statusText json =>
      cases ok with
      | false => simp
      | true =>
        cases json with
        | error e => simp
        | ok body => simp

/-! ### C21 -/

theorem badRequest_shape (error : String) (h : error ≠ "") :
    (badRequest error).status = 400 ∧ (badRequest error).success = some false
      ∧ (∃ e, (badRequest error).error = some e ∧ e ≠ "") ∧ (badRequest error).calls = [] :=
  ⟨rfl, rfl, ⟨error, rfl, h⟩, rfl⟩

theorem serverError_status (error message : String) (calls : List String) :
    (serverError error message calls).status = 500 := rfl

theorem okResponse_status (result : String) (calls : List String) :
    (okResponse result calls).status = 200 := rfl

theorem compareFacesBase64_spec (svc : RekognitionServiceObject)
    (sourceImage targetImage : Option String) (threshold : Option ℚ) :
    (fieldFalsy sourceImage = true ∨ fieldFalsy targetImage = true →
        isRejection (compareFacesBase64 svc sourceImage targetImage threshold))
      ∧ (fieldFalsy sourceImage = false ∧ fieldFalsy targetImage = false →
        (compareFacesBase64 svc sourceImage targetImage threshold).status ≠ 400) := by
  constructor
  · intro h
    have : (fieldFalsy sourceImage || fieldFalsy targetImage) = true := by
      simpa [Bool.or_eq_true] using h
    simp only [compareFacesBase64, this, if_true]
    exact badRequest_shape _ (by decide)
  · rintro ⟨h1, h2⟩
    simp only [compareFacesBase64, h1, h2, Bool.or_self, Bool.false_eq_true, if_false]
    repeat' split
    all_goals simp [serverError, okResponse]

theorem detectFacesBase64_spec (svc : RekognitionServiceObject) (image : Option String) :
    (fieldFalsy image = true → isRejection (detectFacesBase64 svc image))
      ∧ (fieldFalsy image = false → (detectFacesBase64 svc image).status ≠ 400) := by
  constructor
  · intro h
    simp only [detectFacesBase64, h, if_true]
    exact badRequest_shape _ (by decide)
  · intro h
    simp only [detectFacesBase64, h, Bool.false_eq_true, if_false]
    repeat' split
    all_goals simp [serverError, okResponse]

theorem validateImageQualityRoute_spec (svc : RekognitionServiceObject)
    (image : Option String) :
    (fieldFalsy image = true → isRejection (validateImageQualityRoute svc image))
      ∧ (fieldFalsy image = false → (validateImageQualityRoute svc image).status ≠ 400) := by
  constructor
  · intro h
    simp only [validateImageQualityRoute, h, if_true]
    exact badRequest_shape _ (by decide)
  · intro h
    simp only [validateImageQualityRoute, h, Bool.false_eq_true, if_false]
    repeat' split
    all_goals simp [serverError, okResponse]

theorem createCollectionRoute_spec (svc : RekognitionServiceObject)
    (collectionId : Option String) :
    (fieldFalsy collectionId = true → isRejection (createCollectionRoute svc collectionId))
      ∧ (fieldFalsy collectionId = false →
        (createCollectionRoute svc collectionId).status ≠ 400) := by
  constructor
  · intro h
    simp only [createCollectionRoute, h, if_true]
    exact badRequest_shape _ (by decide)
  · intro h
    simp only [createCollectionRoute, h, Bool.false_eq_true, if_false]
    repeat' split
    all_goals simp [serverError, okResponse]

theorem indexFaceRoute_spec (svc : RekognitionServiceObject)
    (image collectionId externalImageId : Option String) :
    (fieldFalsy image = true ∨ fieldFalsy collectionId = true
          ∨ fieldFalsy externalImageId = true →
        isRejection (indexFaceRoute svc image collectionId externalImageId))
      ∧ (fieldFalsy image = false ∧ fieldFalsy collectionId = false
          ∧ fieldFalsy externalImageId = false →
        (indexFaceRoute svc image collectionId externalImageId).status ≠ 400) := by
  constructor
  · intro h
    have : (fieldFalsy image || fieldFalsy collectionId || fieldFalsy externalImageId)
        = true := by
      simpa [Bool.or_eq_true, or_assoc] using h
    simp only [indexFaceRoute, this, if_true]
    exact badRequest_shape _ (by decide)
  · rintro ⟨h1, h2, h3⟩
    simp only [indexFaceRoute, h1, h2, h3, Bool.or_self, Bool.false_eq_true, if_false]
    repeat' split
    all_goals simp [serverError, okResponse]

theorem searchFacesRoute_spec (svc : RekognitionServiceObject)
    (image collectionId : Option String) (threshold maxFaces : Option ℚ) :
    (fieldFalsy image = true ∨ fieldFalsy collectionId = true →
        isRejection (searchFacesRoute svc image collectionId threshold maxFaces))
      ∧ (fieldFalsy image = false ∧ fieldFalsy collectionId = false →
        (searchFacesRoute svc image collectionId threshold maxFaces).status ≠ 400) := by
  constructor
  · intro h
    have : (fieldFalsy image || fieldFalsy collectionId) = true := by
      simpa [Bool.or_eq_true] using h
    simp only [searchFacesRoute, this, if_true]
    exact badRequest_shape _ (by decide)
  · rintro ⟨h1, h2⟩
    simp only [searchFacesRoute, h1, h2, Bool.or_self, Bool.false_eq_true, if_false]
    repeat' split
    all_goals simp [serverError, okResponse]

theorem fieldFalsy_iff (x : Option String) : fieldFalsy x = true ↔ x = none ∨ x = some "" := by
  cases x with
  | none => simp [fieldFalsy]
  | some s => simp [fieldFalsy]

/-- C21: in each of the six JSON routes a body in which a required field is
missing or is the empty string is answered with status 400, `success=false`, a
non-empty error message and no call of the Rekognition service; a body in which
every required field is a non-empty string is never answered with status 400,
whatever the service does. -/
theorem C21_required_fields (svc : RekognitionServiceObject)
    (sourceImage targetImage image collectionId externalImageId : Option String)
    (threshold maxFaces : Option ℚ) :
    (∀ x : Option String, fieldFalsy x = true ↔ x = none ∨ x = some "")
    ∧ ((fieldFalsy sourceImage = true ∨ fieldFalsy targetImage = true →
        isRejection (compareFacesBase64 svc sourceImage targetImage threshold))
      ∧ (fieldFalsy sourceImage = false ∧ fieldFalsy targetImage = false →
        (compareFacesBase64 svc sourceImage targetImage threshold).status ≠ 400))
    ∧ ((fieldFalsy image = true → isRejection (detectFacesBase64 svc image))
      ∧ (fieldFalsy image = false → (detectFacesBase64 svc image).status ≠ 400))
    ∧ ((fieldFalsy image = true → isRejection (validateImageQualityRoute svc image))
      ∧ (fieldFalsy image = false → (validateImageQualityRoute svc image).status ≠ 400))
    ∧ ((fieldFalsy collectionId = true → isRejection (createCollectionRoute svc collectionId))
      ∧ (fieldFalsy collectionId = false →
        (createCollectionRoute svc collectionId).status ≠ 400))
    ∧ ((fieldFalsy image = true ∨ fieldFalsy collectionId = true
          ∨ fieldFalsy externalImageId = true →
        isRejection (indexFaceRoute svc image collectionId externalImageId))
      ∧ (fieldFalsy image = false ∧ fieldFalsy collectionId = false
          ∧ fieldFalsy externalImageId = false →
        (indexFaceRoute svc image collectionId externalImageId).status ≠ 400))
    ∧ ((fieldFalsy image = true ∨ fieldFalsy collectionId = true →
        isRejection (searchFacesRoute svc image collectionId threshold maxFaces))
      ∧ (fieldFalsy image = false ∧ fieldFalsy collectionId = false →
        (searchFacesRoute svc image collectionId threshold maxFaces).status ≠ 400)) :=
  ⟨fieldFalsy_iff, compareFacesBase64_spec svc sourceImage targetImage threshold,
    detectFacesBase64_spec svc image, validateImageQualityRoute_spec svc image,
    createCollectionRoute_spec svc collectionId,
    indexFaceRoute_spec svc image collectionId externalImageId,
    searchFacesRoute_spec svc image collectionId threshold maxFaces⟩

/-- C21 on a service that fails every call: a body without image is rejected
with status 400 before the service is reached, a body with an image and no
collection id is rejected by index-face, and a complete create-collection body
is answered with status 500, not 400. -/
theorem C21_required_fields_witness :
    isRejection (detectFacesBase64 failingService none)
      ∧ isRejection (indexFaceRoute failingService (some "data:image/png;base64,AAAA")
          (some "") (some "user-1"))
      ∧ (createCollectionRoute failingService (some "kyc-faces")).status = 500 :=
  have h := C21_required_fields failingService (some "a") (some "b") none (some "kyc-faces")
    none none none
  have h2 := C21_required_fields failingService none none (some "data:image/png;base64,AAAA")
    (some "") (some "user-1") none none
  ⟨h.2.2.1.1 rfl, h2.2.2.2.2.2.1.1 (Or.inr (Or.inl rfl)), rfl⟩

/-! ### C22 -/

theorem calculateLivenessFromFace_eq (face : FaceDetail) :
    calculateLivenessFromFace face
      = min (livenessQualityPart face + livenessEyePart face + livenessExpressionPart face
          + livenessPosePart face) 100 := by
  unfold calculateLivenessFromFace livenessQualityPart livenessEyePart livenessExpressionPart
    livenessPosePart
  cases face.quality <;> cases face.eyesOpen <;> cases face.emotions <;> cases face.pose <;>
    simp only [] <;> (try split_ifs) <;> first | contradiction | ring_nf

/-- C22: when `Quality.Brightness` and `Quality.Sharpness` lie in `[0,100]`
(or are absent), `calculateLivenessFromFace` is the sum of its four parts
capped at 100; the quality part is at most 40, the eye part at most 30, the
expression part at most 20, the pose part at most 10, none is negative, and the
value returned lies in `[0,100]`. -/
theorem C22_liveness_score_range (face : FaceDetail)
    (hb : ∀ q b, face.quality = some q → q.brightness = some b → 0 ≤ b ∧ b ≤ 100)
    (hs : ∀ q s, face.quality = some q → q.sharpness = some s → 0 ≤ s ∧ s ≤ 100) :
    calculateLivenessFromFace face
        = min (livenessQualityPart face + livenessEyePart face + livenessExpressionPart face
            + livenessPosePart face) 100
      ∧ (0 ≤ livenessQualityPart face ∧ livenessQualityPart face ≤ 40)
      ∧ (0 ≤ livenessEyePart face ∧ livenessEyePart face ≤ 30)
      ∧ (0 ≤ livenessExpressionPart face ∧ livenessExpressionPart face ≤ 20)
      ∧ (0 ≤ livenessPosePart face ∧ livenessPosePart face ≤ 10)
      ∧ 0 ≤ calculateLivenessFromFace face ∧ calculateLivenessFromFace face ≤ 100 := by
  have hq : 0 ≤ livenessQualityPart face ∧ livenessQualityPart face ≤ 40 := by
    unfold livenessQualityPart
    cases hq : face.quality with
    | none => simp
    | some q =>
      have h1 := @jsOr_bounds q.brightness 0 0 100 (fun c hc => hb q c hq hc) (by norm_num)
      have h2 := @jsOr_bounds q.sharpness 0 0 100 (fun c hc => hs q c hq hc) (by norm_num)
      simp only
      constructor <;> linarith [h1.1, h1.2, h2.1, h2.2]
  have he : 0 ≤ livenessEyePart face ∧ livenessEyePart face ≤ 30 := by
    unfold livenessEyePart
    cases face.eyesOpen with
    | none => simp
    | some e => simp only; split_ifs <;> norm_num
  have hx : 0 ≤ livenessExpressionPart face ∧ livenessExpressionPart face ≤ 20 := by
    unfold livenessExpressionPart
    cases face.emotions with
    | none => simp
    | some es =>
      simp only
      split_ifs
      · refine ⟨le_min ?_ (by norm_num), min_le_right _ _⟩
        positivity
      · norm_num
  have hp : 0 ≤ livenessPosePart face ∧ livenessPosePart face ≤ 10 := by
    unfold livenessPosePart
    cases face.pose with
    | none => simp
    | some p =>
      simp only
      exact ⟨le_min (by positivity) (by norm_num), min_le_right _ _⟩
  have heq := calculateLivenessFromFace_eq face
  refine ⟨heq, hq, he, hx, hp, ?_, ?_⟩
  · rw [heq]
    exact le_min (by linarith [hq.1, he.1, hx.1, hp.1]) (by norm_num)
  · rw [heq]
    exact min_le_right _ _

/-- C22 at a bright, sharp face with open eyes, three emotions and a turned head:
the parts are 40, 30, 15 and 10 and the value returned is 95. -/
theorem C22_liveness_score_range_witness :
    calculateLivenessFromFace brightFace
        = min (livenessQualityPart brightFace + livenessEyePart brightFace
            + livenessExpressionPart brightFace + livenessPosePart brightFace) 100
      ∧ (0 ≤ livenessQualityPart brightFace ∧ livenessQualityPart brightFace ≤ 40)
      ∧ (0 ≤ livenessEyePart brightFace ∧ livenessEyePart brightFace ≤ 30)
      ∧ (0 ≤ livenessExpressionPart brightFace ∧ livenessExpressionPart brightFace ≤ 20)
      ∧ (0 ≤ livenessPosePart brightFace ∧ livenessPosePart brightFace ≤ 10)
      ∧ 0 ≤ calculateLivenessFromFace brightFace ∧ calculateLivenessFromFace brightFace ≤ 100 :=
  C22_liveness_score_range brightFace
    (by intro q b hq hb; simp [brightFace] at hq; subst hq; simp at hb; subst hb; norm_num)
    (by intro q s hq hs; simp [brightFace] at hq; subst hq; simp at hs; subst hs; norm_num)

/-! ### C23 -/

/-- C23, evaluation at the failing input: born on 31 December 2007, checked on
15 June 2025. `validateForm` sets no `dateOfBirth` error and returns true, while
`calculateAge` gives 17 completed years for the same dates. -/
theorem C23_seventeen_passes_validation :
    (validateForm ⟨"Neha", some ⟨2007, 11, 31⟩, "Plot 123, Banjara Hills, Hyderabad"⟩
        ⟨2025, 5, 15⟩).1.dateOfBirth = none
      ∧ (validateForm ⟨"Neha", some ⟨2007, 11, 31⟩, "Plot 123, Banjara Hills, Hyderabad"⟩
        ⟨2025, 5, 15⟩).2 = true
      ∧ calculateAge (some ⟨2007, 11, 31⟩) ⟨2025, 5, 15⟩ = some 17 := by
  decide

/-- The check of `validateForm` is on the difference of the calendar years:
there is no `dateOfBirth` error exactly when that difference lies between 18
and 120, and then `calculateAge` gives that difference or one year less. -/
theorem validateForm_dateOfBirth (formData : FormData) (today dob : CalendarDate)
    (h : formData.dateOfBirth = some dob) :
    ((validateForm formData today).1.dateOfBirth = none
        ↔ 18 ≤ today.year - dob.year ∧ today.year - dob.year ≤ 120)
      ∧ ((validateForm formData today).1.dateOfBirth = none →
        ∃ age, calculateAge (some dob) today = some age ∧ 17 ≤ age ∧ age ≤ 120) := by
  have h1 : (validateForm formData today).1.dateOfBirth = none
      ↔ 18 ≤ today.year - dob.year ∧ today.year - dob.year ≤ 120 := by
    simp only [validateForm, h]
    split_ifs with hc
    · simp only [reduceCtorEq, false_iff]
      omega
    · simp only [true_iff]
      omega
  refine ⟨h1, fun hn => ?_⟩
  obtain ⟨ha, hb⟩ := h1.mp hn
  simp only [calculateAge]
  split_ifs
  · exact ⟨_, rfl, by omega, by omega⟩
  · exact ⟨_, rfl, by omega, by omega⟩

/-! ### C24 -/

/-- C24, evaluation at the failing input: "Park Road, Park Town" against
"Park Avenue". The only word the two addresses share is "park"; it is counted
twice, so `compareAddresses` returns true, and with the arguments swapped it
returns false. -/
theorem C24_repeated_word_counts_twice :
    compareAddresses "Park Road, Park Town" "Park Avenue" = true
      ∧ compareAddresses "Park Avenue" "Park Road, Park Town" = false
      ∧ commonWords "Park Road, Park Town" "Park Avenue" = ["park".toList, "park".toList]
      ∧ (commonWords "Park Road, Park Town" "Park Avenue").dedup.length = 1 := by
  decide

/-! ### C25 -/

/-- C25, evaluation at the failing input: the string starts with
"data:image/svg+xml;base64," and holds "data:image/png;base64," further on. The
unanchored pattern finds the later header at index 26 with format "png", and
`validateBase64Image` returns `valid: true`. -/
theorem C25_later_header_accepted :
    jsMatch "data:image/svg+xml;base64,data:image/png;base64,AAAA" formatPattern
        = some { index := 26, whole := "data:image/png;base64,".toList,
                 group1 := some "png".toList }
      ∧ validateBase64Image "data:image/svg+xml;base64,data:image/png;base64,AAAA"
        = .ok { valid := true, message := "Image format is valid" } := by
  have hm : jsMatch "data:image/svg+xml;base64,data:image/png;base64,AAAA" formatPattern
      = some { index := 26, whole := "data:image/png;base64,".toList,
               group1 := some "png".toList } := by
    decide
  refine ⟨hm, ?_⟩
  have he : ("data:image/svg+xml;base64,data:image/png;base64,AAAA" : String).isEmpty = false := by
    decide
  have hs : startsWith ("data:image/svg+xml;base64,data:image/png;base64,AAAA" : String).toList
      "data:image/".toList = true := by
    decide
  have hf : supportedFormats.contains (String.mk ("png".toList.map Char.toLower)) = true := by
    decide
  have hl : ("data:image/svg+xml;base64,data:image/png;base64,AAAA" : String).length = 52 := by
    decide
  simp only [validateBase64Image, he, hs, hm, hf, hl]
  norm_num

/-! ### C26 -/

theorem fallback_confidence_ge (videoFrames faceImages : List String) (r1 r2 r3 : ℚ) :
    (getFallbackLivenessResult videoFrames faceImages r1 r2 r3).success = true
      ∧ (getFallbackLivenessResult videoFrames faceImages r1 r2 r3).confidence ≥ 90 := by
  refine ⟨rfl, ?_⟩
  simp only [getFallbackLivenessResult]
  exact_mod_cast le_max_right _ _

/-- C26: for every outcome of the AWS path `detectLiveness` returns a result
with `success == true`. Without a client, on a thrown error and on a result with
`success=false` it returns the fallback result, whose confidence is at least
90; only a result with `success=true` is passed on. -/
theorem C26_detectLiveness_succeeds (rekognition : Option RekognitionClient)
    (videoFrames faceImages : List String) (rAws r1 r2 r3 : ℚ) :
    (detectLiveness rekognition videoFrames faceImages rAws r1 r2 r3).success = true
      ∧ (rekognition = none →
          detectLiveness rekognition videoFrames faceImages rAws r1 r2 r3
            = getFallbackLivenessResult videoFrames faceImages r1 r2 r3)
      ∧ (∀ client e, rekognition = some client →
          callAWSRekognition client faceImages rAws = .error e →
          detectLiveness rekognition videoFrames faceImages rAws r1 r2 r3
            = getFallbackLivenessResult videoFrames faceImages r1 r2 r3)
      ∧ (∀ client res, rekognition = some client →
          callAWSRekognition client faceImages rAws = .ok res → res.success = false →
          detectLiveness rekognition videoFrames faceImages rAws r1 r2 r3
            = getFallbackLivenessResult videoFrames faceImages r1 r2 r3)
      ∧ (∀ client res, rekognition = some client →
          callAWSRekognition client faceImages rAws = .ok res → res.success = true →
          detectLiveness rekognition videoFrames faceImages rAws r1 r2 r3 = res)
      ∧ (getFallbackLivenessResult videoFrames faceImages r1 r2 r3).success = true
      ∧ (getFallbackLivenessResult videoFrames faceImages r1 r2 r3).confidence ≥ 90 := by
  have hf := fallback_confidence_ge videoFrames faceImages r1 r2 r3
  refine ⟨?_, ?_, ?_, ?_, ?_, hf.1, hf.2⟩
  · cases rekognition with
    | none => exact hf.1
    | some client =>
      simp only [detectLiveness]
      cases hc : callAWSRekognition client faceImages rAws with
      | error e => exact hf.1
      | ok res =>
        by_cases hr : res.success = true
        · simp [hr]
        · simp only [hr]
          exact hf.1
  · intro h
    subst h
    rfl
  · intro client e h hc
    subst h
    simp only [detectLiveness, hc]
  · intro client res h hc hs
    subst h
    simp [detectLiveness, hc, hs]
  · intro client res h hc hs
    subst h
    simp [detectLiveness, hc, hs]

/-- C26 on four frames that AWS judges with `success=false`: the caller gets
the fallback result, with `success == true` and confidence at least 90. -/
theorem C26_detectLiveness_succeeds_witness :
    detectLiveness (some lowConfidenceClient) [] fourFrames 0 0 0 0
        = getFallbackLivenessResult [] fourFrames 0 0 0
      ∧ (detectLiveness (some lowConfidenceClient) [] fourFrames 0 0 0 0).success = true
      ∧ (getFallbackLivenessResult [] fourFrames 0 0 0).confidence ≥ 90 :=
  have h := C26_detectLiveness_succeeds (some lowConfidenceClient) [] fourFrames 0 0 0 0
  ⟨h.2.2.2.1 lowConfidenceClient _ rfl lowConfidence_result rfl, h.1, h.2.2.2.2.2.2⟩

/-! ### C27 -/

theorem fallbackComparison_spec (r : ℚ) (h0 : 0 ≤ r) (h1 : r < 1) :
    (fallbackComparison r).success = true
      ∧ (fallbackComparison r).source = "fallback_comparison"
      ∧ (∃ n : ℤ, (fallbackComparison r).similarity = n ∧ 90 ≤ n ∧ n ≤ 99)
      ∧ (fallbackComparison r).isMatch = true := by
  have hlo : 0 ≤ jsFloor (r * 10) := Int.floor_nonneg.mpr (by linarith)
  have hhi : jsFloor (r * 10) < 10 := Int.floor_lt.mpr (by push_cast; linarith)
  refine ⟨rfl, rfl, ⟨jsFloor (r * 10) + 90, rfl, by omega, by omega⟩, ?_⟩
  simp only [fallbackComparison, decide_eq_true_eq]
  have : ((90 : ℤ) : ℚ) ≤ ((jsFloor (r * 10) + 90 : ℤ) : ℚ) := by exact_mod_cast (by omega)
  push_cast at this ⊢
  linarith

/-- C27: for every random draw in `[0,1)` `compareFaces` returns a result with
`success == true`; `match` is false only when AWS returned a first face match
whose similarity is at most 85; and when no client is configured, the call
throws or AWS returns no face match, the result is the fallback, with a
whole-number similarity from 90 to 99 and `match == true`. -/
theorem C27_compareFaces (rekognition : Option FaceCompareClient)
    (sourceImage targetImage : String) (r : ℚ) (h0 : 0 ≤ r) (h1 : r < 1) :
    (compareFaces rekognition sourceImage targetImage r).success = true
      ∧ ((compareFaces rekognition sourceImage targetImage r).isMatch = false →
          ∃ client similarity others, rekognition = some client
            ∧ client.compareFaces sourceImage targetImage = .ok (some (similarity :: others))
            ∧ similarity ≤ 85
            ∧ (compareFaces rekognition sourceImage targetImage r).similarity = similarity
            ∧ (compareFaces rekognition sourceImage targetImage r).source = "aws_rekognition")
      ∧ ((rekognition = none
            ∨ (∃ client e, rekognition = some client
                ∧ client.compareFaces sourceImage targetImage = .error e)
            ∨ (∃ client, rekognition = some client
                ∧ (client.compareFaces sourceImage targetImage = .ok none
                  ∨ client.compareFaces sourceImage targetImage = .ok (some [])))) →
          compareFaces rekognition sourceImage targetImage r = fallbackComparison r
            ∧ (compareFaces rekognition sourceImage targetImage r).source
                = "fallback_comparison"
            ∧ (∃ n : ℤ, (compareFaces rekognition sourceImage targetImage r).similarity = n
                ∧ 90 ≤ n ∧ n ≤ 99)
            ∧ (compareFaces rekognition sourceImage targetImage r).isMatch = true) := by
  have hf := fallbackComparison_spec r h0 h1
  refine ⟨?_, ?_, ?_⟩
  · unfold compareFaces
    split
    · split
      · rfl
      · exact hf.1
      · exact hf.1
    · exact hf.1
  · intro hm
    cases hcl : rekognition with
    | none =>
      simp only [compareFaces, hcl] at hm
      rw [hf.2.2.2] at hm
      cases hm
    | some client =>
      cases hres : client.compareFaces sourceImage targetImage with
      | error e =>
        simp only [compareFaces, hcl, hres] at hm
        rw [hf.2.2.2] at hm
        cases hm
      | ok o =>
        cases o with
        | none =>
          simp only [compareFaces, hcl, hres] at hm
          rw [hf.2.2.2] at hm
          cases hm
        | some l =>
          cases l with
          | nil =>
            simp only [compareFaces, hcl, hres] at hm
            rw [hf.2.2.2] at hm
            cases hm
          | cons s others =>
            simp only [compareFaces, hcl, hres, decide_eq_false_iff_not, not_lt] at hm
            refine ⟨client, s, others, rfl, hres, hm, ?_, ?_⟩
            · simp only [compareFaces, hres]
            · simp only [compareFaces, hres]
  · intro h
    have heq : compareFaces rekognition sourceImage targetImage r = fallbackComparison r := by
      rcases h with h | ⟨client, e, h, he⟩ | ⟨client, h, he | he⟩
      · subst h; rfl
      · subst h; simp only [compareFaces, he]
      · subst h; simp only [compareFaces, he]
      · subst h; simp only [compareFaces, he]
    rw [heq]
    exact ⟨rfl, hf.2.1, hf.2.2.1, hf.2.2.2⟩

/-- C27 without a client and with random draw 1/2: the fallback result has
similarity 95 and `match == true`. -/
theorem C27_compareFaces_witness :
    (compareFaces none "data:image/jpeg;base64,AA" "data:image/jpeg;base64,AB" (1 / 2)).success
        = true
      ∧ (compareFaces none "data:image/jpeg;base64,AA" "data:image/jpeg;base64,AB" (1 / 2)).isMatch
        = true
      ∧ (∃ n : ℤ, (compareFaces none "data:image/jpeg;base64,AA" "data:image/jpeg;base64,AB"
          (1 / 2)).similarity = n ∧ 90 ≤ n ∧ n ≤ 99) :=
  have h := C27_compareFaces none "data:image/jpeg;base64,AA" "data:image/jpeg;base64,AB"
    (1 / 2) (by norm_num) (by norm_num)
  have h3 := h.2.2 (Or.inl rfl)
  ⟨h.1, h3.2.2.2, h3.2.2.1⟩

/-! ### C28 -/

/-- C28: called with at most 5 face images, `getFallbackLivenessResult` reports,
for every random draw in `[0,1)`, `totalFrames` 5, the scenarios normal 4,
photo 0, blocked 1, and confidence 90. -/
theorem C28_fallback_at_most_five (videoFrames faceImages : List String) (r1 r2 r3 : ℚ)
    (hlen : faceImages.length ≤ 5) (h1 : 0 ≤ r1) (h1' : r1 < 1) (h2 : 0 ≤ r2) (h2' : r2 < 1)
    (h3' : r3 < 1) :
    (getFallbackLivenessResult videoFrames faceImages r1 r2 r3).details.totalFrames = 5
      ∧ (getFallbackLivenessResult videoFrames faceImages r1 r2 r3).details.scenarios
          = { normal := 4, photo := 0, blocked := 1 }
      ∧ (getFallbackLivenessResult videoFrames faceImages r1 r2 r3).confidence = 90 := by
  have hfc : max (faceImages.length : ℤ) 5 = 5 := max_eq_right (by exact_mod_cast hlen)
  have hn : jsFloor (((5 : ℤ) : ℚ) * (85 / 100 + r1 * (1 / 10))) = 4 := by
    unfold jsFloor
    rw [Int.floor_eq_iff]
    push_cast
    constructor <;> linarith
  have hp : jsFloor (((5 : ℤ) : ℚ) * (r2 * (5 / 100))) = 0 := by
    unfold jsFloor
    rw [Int.floor_eq_iff]
    push_cast
    constructor <;> linarith
  have hsc : analyzeScenarios 5 true r1 r2 = { normal := 4, photo := 0, blocked := 1 } := by
    simp only [analyzeScenarios, hn, hp]
    norm_num
  have hr5 : jsFloor (r3 * 5) < 5 := Int.floor_lt.mpr (by push_cast; linarith)
  have hconf : calculateFallbackConfidence { normal := 4, photo := 0, blocked := 1 } r3
      = jsFloor (r3 * 5) + 82 := by
    simp only [calculateFallbackConfidence]
    norm_num
  simp only [getFallbackLivenessResult, hfc, hsc, hconf]
  refine ⟨trivial, trivial, ?_⟩
  have : max (jsFloor (r3 * 5) + 82) 90 = 90 := max_eq_right (by omega)
  rw [this]
  norm_num

/-- C28 with no face image and draws 1/2, 1/2 and 9/10. -/
theorem C28_fallback_at_most_five_witness :
    (getFallbackLivenessResult [] [] (1 / 2) (1 / 2) (9 / 10)).details.totalFrames = 5
      ∧ (getFallbackLivenessResult [] [] (1 / 2) (1 / 2) (9 / 10)).details.scenarios
          = { normal := 4, photo := 0, blocked := 1 }
      ∧ (getFallbackLivenessResult [] [] (1 / 2) (1 / 2) (9 / 10)).confidence = 90 :=
  C28_fallback_at_most_five [] [] (1 / 2) (1 / 2) (9 / 10) (by decide) (by norm_num)
    (by norm_num) (by norm_num) (by norm_num) (by norm_num)

/-! ### C29 -/

theorem overallResult_spec (m : Matches) (livenessConfidence documentConfidence : ℚ) :
    ((overallResult m livenessConfidence documentConfidence).recommendation = "APPROVED"
        ↔ (overallResult m livenessConfidence documentConfidence).success = true)
      ∧ ((overallResult m livenessConfidence documentConfidence).success = true
        ↔ (overallResult m livenessConfidence documentConfidence).riskLevel = "LOW")
      ∧ ((overallResult m livenessConfidence documentConfidence).success = true
        ↔ (m.liveness = true ∧ m.document = true
            ∧ ([m.name, m.dateOfBirth, m.address].filter (fun b => !b)).length ≤ 1)) := by
  obtain ⟨a, b, c, d, e⟩ := m
  cases a <;> cases b <;> cases c <;> cases d <;> cases e <;>
    simp [overallResult, Matches.count, calculateRiskLevel] <;>
    first | decide | (norm_num; done) | (norm_num; decide)

/-- C29: for every combination of the five match flags, the recommendation is
"APPROVED" if and only if `success` is true, if and only if the risk level is
"LOW", and this holds exactly when liveness and document are both true and at
most one of name, date of birth and address is false; so it is for the result
of `processVerificationData`, whatever its inputs. -/
theorem C29_approval_iff (m : Matches) (livenessConfidence documentConfidence : ℚ)
    (providedName providedAddress extractedName extractedAddress : String)
    (dobMatch livenessSuccess : Bool) :
    (((overallResult m livenessConfidence documentConfidence).recommendation = "APPROVED"
        ↔ (overallResult m livenessConfidence documentConfidence).success = true)
      ∧ ((overallResult m livenessConfidence documentConfidence).success = true
        ↔ (overallResult m livenessConfidence documentConfidence).riskLevel = "LOW")
      ∧ ((overallResult m livenessConfidence documentConfidence).success = true
        ↔ (m.liveness = true ∧ m.document = true
            ∧ ([m.name, m.dateOfBirth, m.address].filter (fun b => !b)).length ≤ 1)))
    ∧ (((processVerificationData providedName providedAddress extractedName extractedAddress
          dobMatch livenessSuccess livenessConfidence documentConfidence).recommendation
          = "APPROVED"
        ↔ (processVerificationData providedName providedAddress extractedName extractedAddress
          dobMatch livenessSuccess livenessConfidence documentConfidence).success = true)
      ∧ ((processVerificationData providedName providedAddress extractedName extractedAddress
          dobMatch livenessSuccess livenessConfidence documentConfidence).success = true
        ↔ (processVerificationData providedName providedAddress extractedName extractedAddress
          dobMatch livenessSuccess livenessConfidence documentConfidence).riskLevel = "LOW")
      ∧ ((processVerificationData providedName providedAddress extractedName extractedAddress
          dobMatch livenessSuccess livenessConfidence documentConfidence).success = true
        ↔ (livenessSuccess = true ∧ documentConfidence > 85
            ∧ ([compareNames providedName extractedName, dobMatch,
                compareAddresses providedAddress extractedAddress].filter
                  (fun b => !b)).length ≤ 1))) := by
  refine ⟨overallResult_spec m livenessConfidence documentConfidence, ?_⟩
  have h := overallResult_spec
    { name := compareNames providedName extractedName
      dateOfBirth := dobMatch
      address := compareAddresses providedAddress extractedAddress
      liveness := livenessSuccess
      document := decide (documentConfidence > 85) } livenessConfidence documentConfidence
  simp only [decide_eq_true_eq] at h
  exact h

/-! ### C30 -/

theorem startsWith_iff (s t : List Char) : startsWith s t = true ↔ t <+: s := by
  induction t generalizing s with
  | nil => cases s <;> simp [startsWith]
  | cons d t ih =>
    cases s with
    | nil => simp [startsWith]
    | cons c s =>
      simp only [startsWith, Bool.and_eq_true, beq_iff_eq, ih, List.cons_prefix_cons]
      constructor
      · rintro ⟨h1, h2⟩; exact ⟨h1.symm, h2⟩
      · rintro ⟨h1, h2⟩; exact ⟨h1.symm, h2⟩

theorem jsIncludes_iff (s t : List Char) : jsIncludes s t = true ↔ t <:+: s := by
  simp only [jsIncludes, List.any_eq_true, List.mem_tails, startsWith_iff]
  rw [List.infix_iff_prefix_suffix]
  constructor <;> rintro ⟨x, h1, h2⟩ <;> exact ⟨x, h2, h1⟩

theorem compareNames_iff (provided extracted : String) :
    compareNames provided extracted = true
      ↔ (normalizeName extracted <:+: normalizeName provided
          ∨ normalizeName provided <:+: normalizeName extracted) := by
  simp only [compareNames, Bool.or_eq_true, beq_iff_eq, jsIncludes_iff]
  constructor
  · rintro ((h | h) | h)
    · left
      rw [h]
    · exact Or.inl h
    · exact Or.inr h
  · rintro (h | h)
    · exact Or.inl (Or.inr h)
    · exact Or.inr h

theorem toLower_of_space (c : Char) (h : isJsSpace c = true) : c.toLower = c := by
  unfold Char.toLower
  simp only
  split_ifs with hr
  · exfalso
    simp only [isJsSpace, Bool.or_eq_true, beq_iff_eq, Bool.and_eq_true,
      decide_eq_true_eq] at h
    omega
  · rfl

theorem normalizeName_blank (name : String) (h : ∀ c ∈ name.toList, isJsSpace c = true) :
    normalizeName name = [] := by
  have h' : ∀ c ∈ name.data, isJsSpace c = true := h
  have hmap : name.data.map Char.toLower = name.data := by
    conv_rhs => rw [← List.map_id name.data]
    apply List.map_congr_left
    intro c hc
    exact toLower_of_space c (h' c hc)
  have hdrop : name.data.dropWhile isJsSpace = [] := by
    rw [List.dropWhile_eq_nil_iff]
    exact h'
  simp [normalizeName, String.toList, hmap, jsTrim, hdrop, collapseSpaces, collapseAux]

/-- C30: `compareNames` is symmetric in its arguments; it returns true exactly
when one normalised name (lower-cased, trimmed, whitespace runs collapsed) is a
substring of the other; and a blank extracted name matches every provided
name. -/
theorem C30_compareNames (provided extracted : String) :
    compareNames provided extracted = compareNames extracted provided
      ∧ (compareNames provided extracted = true
          ↔ (normalizeName extracted <:+: normalizeName provided
              ∨ normalizeName provided <:+: normalizeName extracted))
      ∧ ((∀ c ∈ extracted.toList, isJsSpace c = true) →
          compareNames provided extracted = true) := by
  refine ⟨?_, compareNames_iff provided extracted, ?_⟩
  · rw [Bool.eq_iff_iff, compareNames_iff, compareNames_iff]
    exact or_comm
  · intro h
    rw [compareNames_iff, normalizeName_blank extracted h]
    exact Or.inl List.nil_infix

/-- C30 at the provided name "Neha" and an extracted name of two spaces. -/
theorem C30_compareNames_witness :
    compareNames "Neha" "  " = true :=
  (C30_compareNames "Neha" "  ").2.2 (by decide)

end KYCNova
